import Mathlib

/-!
Shallow embedding of the IAMUserPolicyAttachment reconciliation adapter
(`pkg/controller/identity/iamuserpolicyattachment/controller.go`) and of the
generated deep-copy functions for the Secrets-Manager `Secret` API types,
together with theorems settling the specification claims about them.
-/

namespace ProviderAWS

/-! ## Error model

Go errors as an inductive type: `Err.awsErr code msg` is an AWS SDK error
carrying an error code (`awserr.New(code, msg, nil)`), `Err.str msg` is
`errors.New(msg)`, and `Err.wrap cause msg` is `errors.Wrap(cause, msg)` —
a wrapper that preserves the underlying cause. A Go `error` value that may
be `nil` is an `Option Err`.
-/

inductive Err where
  | awsErr (code : String) (msg : String)
  | str (msg : String)
  | wrap (cause : Err) (msg : String)
deriving DecidableEq, Repr

/-- `controller.go` line 41. -/
def errUnexpectedObject : String :=
  "The managed resource is not an UserPolicyAttachment resource"

/-- `controller.go` line 43. -/
def errGet : String := "failed to get UserPolicyAttachments for user"

/-- `controller.go` line 44. -/
def errAttach : String := "failed to attach the policy to user"

/-- `controller.go` line 45. -/
def errDetach : String := "failed to detach the policy to user"

/-- `controller.go` line 47. -/
def errKubeUpdateFailed : String := "cannot late initialize UserPolicyAttachment"

/-- Modelled from the spec: the provider-supplied predicate classifying
errors as "not found" (`iam.IsErrorNotFound`, declared in
`pkg/clients/iam`, not present under `src/`). The spec says errors "must be
distinguishable as not-found vs other via a predicate supplied by the
facade"; the tests realize a not-found provider response as
`awserr.New(awsiam.ErrCodeNoSuchEntityException, "", nil)`, so the
predicate recognizes exactly the AWS error code `NoSuchEntityException`. -/
def IsErrorNotFound : Err → Bool
  | .awsErr code _ => code == "NoSuchEntityException"
  | _ => false

/-- Modelled from the spec: `resource.Ignore` from the external
reconciliation framework (crossplane-runtime). A not-found error is
"never surfaced as an error": `Ignore is err` returns `nil` when the
predicate holds of the error, and the error itself otherwise. -/
def Ignore (is : Err → Bool) : Option Err → Option Err
  | none => none
  | some e => if is e then none else some e

/-- Modelled from the spec: `awsclient.Wrap` (declared in `pkg/clients`,
not present under `src/`). The spec's propagation policy: "every provider
error is wrapped with a short static tag identifying which operation
failed ... preserving the underlying cause". A `nil` error stays `nil`. -/
def Wrap : Option Err → String → Option Err
  | none, _ => none
  | some e, msg => some (.wrap e msg)

/-! ## Conditions (crossplane-runtime `xpv1`)

A `Condition` carries a type, a status and a reason (transition-time
metadata is irrelevant to the claims and omitted). `xpv1.Creating()`,
`xpv1.Available()` and `xpv1.Deleting()` are the three fixed values the
adapter sets; `SetConditions` overwrites the condition with the same type,
appending when none exists.
-/

structure Condition where
  ctype : String
  status : String
  reason : String
deriving DecidableEq, Repr

/-- `xpv1.Creating()`: type `Ready`, status `False`, reason `Creating`. -/
def Creating : Condition := ⟨"Ready", "False", "Creating"⟩

/-- `xpv1.Available()`: type `Ready`, status `True`, reason `Available`. -/
def Available : Condition := ⟨"Ready", "True", "Available"⟩

/-- `xpv1.Deleting()`: type `Ready`, status `False`, reason `Deleting`. -/
def Deleting : Condition := ⟨"Ready", "False", "Deleting"⟩

/-- `ConditionedStatus.SetConditions` for a single new condition: replace
the existing condition of the same type, or append when there is none. -/
def setCondition (conds : List Condition) (c : Condition) : List Condition :=
  if conds.any (fun x => x.ctype == c.ctype) then
    conds.map (fun x => if x.ctype == c.ctype then c else x)
  else
    conds ++ [c]

/-! ## The managed resource (`apis/identity/v1alpha1`) -/

/-- `IAMUserPolicyAttachmentParameters`: the desired-state configuration —
the user name and the ARN of the policy to attach. -/
structure IAMUserPolicyAttachmentParameters where
  userName : String
  policyARN : String
deriving DecidableEq, Repr

/-- `IAMUserPolicyAttachmentObservation`: the status sub-object recording
the attached policy's ARN. -/
structure IAMUserPolicyAttachmentObservation where
  attachedPolicyARN : String
deriving DecidableEq, Repr

/-- The `IAMUserPolicyAttachment` custom resource: desired-state spec,
status conditions and the provider-observed status. -/
structure IAMUserPolicyAttachment where
  forProvider : IAMUserPolicyAttachmentParameters
  conditions : List Condition
  atProvider : IAMUserPolicyAttachmentObservation
deriving DecidableEq, Repr

/-- A managed resource of some other concrete kind, opaque to this
adapter; stands for any value failing the `*IAMUserPolicyAttachment`
type assertion. -/
structure ForeignManaged where
  tag : String
deriving DecidableEq, Repr

/-- `resource.Managed` as seen by this adapter: either the expected
concrete type or some other managed-resource kind. -/
inductive Managed where
  | userPolicyAttachment (cr : IAMUserPolicyAttachment)
  | foreign (o : ForeignManaged)
deriving DecidableEq, Repr

/-! ## The provider client facade -/

/-- `awsiam.AttachedPolicy`: an element of the list-attached-policies
response; both fields are `*string` in Go, hence `Option String`. -/
structure AttachedPolicy where
  policyArn : Option String
  policyName : Option String
deriving DecidableEq, Repr

/-- `aws.StringValue`: dereference a `*string`, with `""` for `nil`. -/
def stringValue : Option String → String
  | none => ""
  | some s => s

/-- `iam.UserPolicyAttachmentClient`: the capability-scoped facade.
`listAttachedUserPolicies` takes the user name and returns the attached
policies or an error; `attachUserPolicy` and `detachUserPolicy` take the
policy ARN and the user name and return the call's error, if any. -/
structure UserPolicyAttachmentClient where
  listAttachedUserPolicies : String → Except Err (List AttachedPolicy)
  attachUserPolicy : String → String → Option Err
  detachUserPolicy : String → String → Option Err

/-! ## Late initialization (`pkg/clients/iam`, modelled) -/

/-- Modelled from the spec: `awsclient.LateInitializeString` (declared in
`pkg/clients`, not present under `src/`). Late initialization "copies
provider-observed values into any desired-state fields left unset by the
user ... never overwrites user-set values": an empty string is replaced by
the observed value when one is present, any other value is kept. -/
def LateInitializeString (s : String) (observed : Option String) : String :=
  if s = "" then
    match observed with
    | some v => v
    | none => s
  else s

/-- Modelled from the spec: `iam.LateInitializeUserPolicy` (declared in
`pkg/clients/iam`, not present under `src/`). It late-initializes the one
optional parameter, the policy ARN, from the observed attached policy. -/
def LateInitializeUserPolicy (p : IAMUserPolicyAttachmentParameters)
    (policy : AttachedPolicy) : IAMUserPolicyAttachmentParameters :=
  { p with policyARN := LateInitializeString p.policyARN policy.policyArn }

/-! ## Lifecycle results (`managed` package) -/

/-- `managed.ExternalObservation`; the zero value has both flags false. -/
structure ExternalObservation where
  resourceExists : Bool := false
  resourceUpToDate : Bool := false
deriving DecidableEq, Repr

/-- `managed.ExternalCreation`; the adapter always returns the zero value
(no connection details published). -/
structure ExternalCreation where
  connectionDetails : List (String × String) := []
deriving DecidableEq, Repr

/-- `managed.ExternalUpdate`; the adapter always returns the zero value. -/
structure ExternalUpdate where
  connectionDetails : List (String × String) := []
deriving DecidableEq, Repr

/-! ## The adapter: `external` methods

Each method is embedded as a function returning the (possibly mutated)
managed resource together with the Go return values; `Observe` also
returns the trace of cluster-store writes (`kube.Update` calls) it issued.
-/

/-- The search loop of `Observe` (`controller.go` lines 98-104): the first
attached policy whose ARN (`aws.StringValue`-dereferenced) equals the
desired `Spec.ForProvider.PolicyARN`. -/
def findAttachedPolicy (policyARN : String) : List AttachedPolicy → Option AttachedPolicy
  | [] => none
  | p :: ps =>
    if policyARN = stringValue p.policyArn then some p
    else findAttachedPolicy policyARN ps

/-- Result of the late-initialization step: the mutated resource, the
error returned early (if any), and the list of objects passed to
`kube.Update`. -/
structure LateInitResult where
  cr : IAMUserPolicyAttachment
  err : Option Err
  kubeWrites : List IAMUserPolicyAttachment
deriving DecidableEq, Repr

/-- `controller.go` lines 112-118: deep-copy the current parameters,
late-initialize in place, and when that changed the parameters persist
the updated object via `kube.Update`, wrapping a persistence failure
with `errKubeUpdateFailed`. -/
def lateInitAndPersist (kubeUpdate : IAMUserPolicyAttachment → Option Err)
    (cr : IAMUserPolicyAttachment) (pol : AttachedPolicy) : LateInitResult :=
  if cr.forProvider = LateInitializeUserPolicy cr.forProvider pol then
    ⟨{ cr with forProvider := LateInitializeUserPolicy cr.forProvider pol }, none, []⟩
  else
    match kubeUpdate { cr with forProvider := LateInitializeUserPolicy cr.forProvider pol } with
    | some e =>
      ⟨{ cr with forProvider := LateInitializeUserPolicy cr.forProvider pol },
        some (.wrap e errKubeUpdateFailed),
        [{ cr with forProvider := LateInitializeUserPolicy cr.forProvider pol }]⟩
    | none =>
      ⟨{ cr with forProvider := LateInitializeUserPolicy cr.forProvider pol }, none,
        [{ cr with forProvider := LateInitializeUserPolicy cr.forProvider pol }]⟩

/-- Return value of the embedded `Observe`. -/
structure ObserveResult where
  mgd : Managed
  obs : ExternalObservation
  err : Option Err
  kubeWrites : List IAMUserPolicyAttachment
deriving DecidableEq, Repr

/-- `controller.go` lines 112-129, found case: run the
late-initialization step; on its failure return early with the mutated
object and the wrapped error; otherwise set `Available`, record the
attached policy ARN in status, and report an existing, up-to-date
resource. -/
def observeFound (kubeUpdate : IAMUserPolicyAttachment → Option Err)
    (cr : IAMUserPolicyAttachment) (pol : AttachedPolicy) : ObserveResult :=
  match lateInitAndPersist kubeUpdate cr pol with
  | ⟨cr', some e, writes⟩ => ⟨.userPolicyAttachment cr', {}, some e, writes⟩
  | ⟨cr', none, writes⟩ =>
    ⟨.userPolicyAttachment
        { cr' with
          conditions := setCondition cr'.conditions Available,
          atProvider := ⟨stringValue pol.policyArn⟩ },
      { resourceExists := true, resourceUpToDate := true }, none, writes⟩

/-- `controller.go` lines 98-110: dispatch on the result of the ARN
search over the listed policies. -/
def observeMatched (kubeUpdate : IAMUserPolicyAttachment → Option Err)
    (cr : IAMUserPolicyAttachment) : Option AttachedPolicy → ObserveResult
  | none => ⟨.userPolicyAttachment cr, { resourceExists := false }, none, []⟩
  | some pol => observeFound kubeUpdate cr pol

/-- `controller.go` lines 91-96: dispatch on the outcome of the list
call — not-found errors ignored, others wrapped with `errGet`. -/
def observeListed (kubeUpdate : IAMUserPolicyAttachment → Option Err)
    (cr : IAMUserPolicyAttachment) : Except Err (List AttachedPolicy) → ObserveResult
  | .error e =>
    ⟨.userPolicyAttachment cr, {}, Wrap (Ignore IsErrorNotFound (some e)) errGet, []⟩
  | .ok policies =>
    observeMatched kubeUpdate cr (findAttachedPolicy cr.forProvider.policyARN policies)

/-- `external.Observe` (`controller.go` lines 85-130): type-check, list
the user's attached policies, then the dispatch chain above. -/
def Observe (client : UserPolicyAttachmentClient)
    (kubeUpdate : IAMUserPolicyAttachment → Option Err) : Managed → ObserveResult
  | .foreign o => ⟨.foreign o, {}, some (.str errUnexpectedObject), []⟩
  | .userPolicyAttachment cr =>
    observeListed kubeUpdate cr (client.listAttachedUserPolicies cr.forProvider.userName)

/-- Return value of the embedded `Create`. -/
structure CreateResult where
  mgd : Managed
  creation : ExternalCreation
  err : Option Err
deriving DecidableEq, Repr

/-- `external.Create` (`controller.go` lines 132-146): type-check, set
`Creating`, issue the attach call (with the spec's policy ARN and user
name, which setting the condition does not touch), and wrap its error
(if any) with `errAttach`. -/
def Create (client : UserPolicyAttachmentClient) : Managed → CreateResult
  | .foreign o => ⟨.foreign o, {}, some (.str errUnexpectedObject)⟩
  | .userPolicyAttachment cr =>
    ⟨.userPolicyAttachment { cr with conditions := setCondition cr.conditions Creating },
      {},
      Wrap (client.attachUserPolicy cr.forProvider.policyARN cr.forProvider.userName)
        errAttach⟩

/-- Return value of the embedded `Update`. -/
structure UpdateResult where
  mgd : Managed
  update : ExternalUpdate
  err : Option Err
deriving DecidableEq, Repr

/-- `external.Update` (`controller.go` lines 148-153): both arguments are
ignored (`_ context.Context, _ resource.Managed`); the method returns the
zero update result and a nil error without touching the client, the
store, or the object. -/
def Update (_client : UserPolicyAttachmentClient)
    (_kubeUpdate : IAMUserPolicyAttachment → Option Err) (mgd : Managed) : UpdateResult :=
  ⟨mgd, {}, none⟩

/-- Return value of the embedded `Delete`. -/
structure DeleteResult where
  mgd : Managed
  err : Option Err
deriving DecidableEq, Repr

/-- `external.Delete` (`controller.go` lines 155-169): type-check, set
`Deleting`, issue the detach call (on spec fields the condition change
does not touch), ignore a not-found error, and wrap any other error with
`errDetach`. -/
def Delete (client : UserPolicyAttachmentClient) : Managed → DeleteResult
  | .foreign o => ⟨.foreign o, some (.str errUnexpectedObject)⟩
  | .userPolicyAttachment cr =>
    ⟨.userPolicyAttachment { cr with conditions := setCondition cr.conditions Deleting },
      Wrap (Ignore IsErrorNotFound
        (client.detachUserPolicy cr.forProvider.policyARN cr.forProvider.userName))
        errDetach⟩

/-! Concrete fixtures for sanity checks and witnesses. -/

/-- A client whose three operations return fixed values. -/
def constClient (listed : Except Err (List AttachedPolicy))
    (attach detach : Option Err) : UserPolicyAttachmentClient :=
  ⟨fun _ => listed, fun _ _ => attach, fun _ _ => detach⟩

/-- A cluster store whose `Update` always succeeds. -/
def okKube : IAMUserPolicyAttachment → Option Err := fun _ => none

/-- A sample correctly-typed resource. -/
def sampleCR : IAMUserPolicyAttachment :=
  ⟨⟨"some-user", "arn:aws:iam::123456789012:policy/sample"⟩, [], ⟨""⟩⟩

/-- The not-found provider error the tests use. -/
def notFoundErr : Err := .awsErr "NoSuchEntityException" ""

/-- A generic provider failure (`errors.New("boom")`). -/
def boom : Err := .str "boom"

/-! ## Deep copy of the Secrets-Manager `Secret` API types

The generated functions `SecretParameters.DeepCopyInto` / `DeepCopy`
manipulate Go pointers and slices, so they are embedded against an
explicit heap: a list of typed cells addressed by index. A Go `*T` field
is an `Option Nat` (an optional address), a Go slice of tags is an
optional address of a `tagsCell` holding the backing array. `DeepCopyInto`
allocates fresh cells at the end of the heap, exactly mirroring Go's
`new(T)` / `make([]Tag, len)` allocations.
-/

/-- `xpv1.Reference` (flat: copied with a plain dereference assignment). -/
structure Reference where
  name : String
deriving DecidableEq, Repr

/-- `xpv1.SecretReference` (flat). -/
structure SecretReference where
  name : String
  namespaceName : String
deriving DecidableEq, Repr

/-- A Secrets-Manager `Tag` (flat: its `DeepCopyInto` is `*out = *in`). -/
structure Tag where
  key : String
  value : String
deriving DecidableEq, Repr

/-- `xpv1.Selector`: `MatchControllerRef *bool` and
`MatchLabels map[string]string`, both reference-typed, held as optional
heap addresses. -/
structure Selector where
  matchControllerRef : Option Nat
  matchLabels : Option Nat
deriving DecidableEq, Repr

/-- `SecretSelector` (deep-copied at `src` lines 339-346): a value field
and the pointer field `SecretReference *xpv1.SecretReference`. -/
structure SecretSelector where
  key : String
  secretReference : Option Nat
deriving DecidableEq, Repr

/-- A heap cell: one allocated Go object. -/
inductive Cell where
  | strCell (s : String)
  | boolCell (b : Bool)
  | intCell (n : Int)
  | refCell (r : Reference)
  | secretRefCell (r : SecretReference)
  | labelsCell (ls : List (String × String))
  | selectorCell (s : Selector)
  | secretSelectorCell (s : SecretSelector)
  | tagsCell (ts : List Tag)
deriving DecidableEq, Repr

/-- The heap: cells addressed by list index. -/
abbrev Heap := List Cell

/-- Allocate a fresh cell, returning the grown heap and the new address. -/
def alloc (h : Heap) (c : Cell) : Heap × Nat := (h ++ [c], h.length)

/-- `SecretParameters` (deep-copied at `src` lines 284-326): the one
value field from the CRD schema (`region`), seven pointer fields and the
`Tags` slice. -/
structure SecretParameters where
  region : String
  description : Option Nat
  kmsKeyID : Option Nat
  kmsKeyRef : Option Nat
  kmsKeySelector : Option Nat
  secretRef : Option Nat
  forceDeleteWithoutRecovery : Option Nat
  recoveryWindowInDays : Option Nat
  tags : Option Nat
deriving DecidableEq, Repr

/-- `if in.X != nil { *out.X = new(string); **out.X = **in.X }`: allocate a
fresh string cell holding the same value. An address not holding a string
cell is kept as the aliasing `*out = *in` left it (unreachable on
well-formed input). -/
def copyStringPtr (h : Heap) : Option Nat → Heap × Option Nat
  | none => (h, none)
  | some a =>
    match h[a]? with
    | some (.strCell s) =>
      let (h', a') := alloc h (.strCell s)
      (h', some a')
    | _ => (h, some a)

/-- Fresh copy of a `*bool` field. -/
def copyBoolPtr (h : Heap) : Option Nat → Heap × Option Nat
  | none => (h, none)
  | some a =>
    match h[a]? with
    | some (.boolCell b) =>
      let (h', a') := alloc h (.boolCell b)
      (h', some a')
    | _ => (h, some a)

/-- Fresh copy of an `*int64` field. -/
def copyIntPtr (h : Heap) : Option Nat → Heap × Option Nat
  | none => (h, none)
  | some a =>
    match h[a]? with
    | some (.intCell n) =>
      let (h', a') := alloc h (.intCell n)
      (h', some a')
    | _ => (h, some a)

/-- Fresh copy of a `*xpv1.Reference` field (`**out = **in`). -/
def copyRefPtr (h : Heap) : Option Nat → Heap × Option Nat
  | none => (h, none)
  | some a =>
    match h[a]? with
    | some (.refCell r) =>
      let (h', a') := alloc h (.refCell r)
      (h', some a')
    | _ => (h, some a)

/-- Fresh copy of a `*xpv1.SecretReference` field (`**out = **in`). -/
def copySecretRefPtr (h : Heap) : Option Nat → Heap × Option Nat
  | none => (h, none)
  | some a =>
    match h[a]? with
    | some (.secretRefCell r) =>
      let (h', a') := alloc h (.secretRefCell r)
      (h', some a')
    | _ => (h, some a)

/-- Fresh copy of a labels map (`make(map[string]string, ...)` plus
element copy, as in the generated deep copy of `xpv1.Selector`). -/
def copyLabelsPtr (h : Heap) : Option Nat → Heap × Option Nat
  | none => (h, none)
  | some a =>
    match h[a]? with
    | some (.labelsCell ls) =>
      let (h', a') := alloc h (.labelsCell ls)
      (h', some a')
    | _ => (h, some a)

/-- Fresh copy of the `Tags` slice: `make([]Tag, len(*in)); copy` — a
fresh backing array with the same (flat) elements. -/
def copyTagsPtr (h : Heap) : Option Nat → Heap × Option Nat
  | none => (h, none)
  | some a =>
    match h[a]? with
    | some (.tagsCell ts) =>
      let (h', a') := alloc h (.tagsCell ts)
      (h', some a')
    | _ => (h, some a)

/-- Modelled from the spec: the generated `DeepCopyInto` of the
collaborator type `xpv1.Selector` (crossplane-runtime, not present under
`src/`), following the same generated-deep-copy pattern as the `src`
code: each reference-typed field gets a freshly allocated copy. -/
def Selector.deepCopyIntoH (h : Heap) (s : Selector) : Heap × Selector :=
  let s1 := copyBoolPtr h s.matchControllerRef
  let s2 := copyLabelsPtr s1.1 s.matchLabels
  (s2.1, ⟨s1.2, s2.2⟩)

/-- `SecretSelector.DeepCopyInto` (`src` lines 339-346): `*out = *in`,
then a fresh flat copy of the `SecretReference` pointee when non-nil. -/
def SecretSelector.deepCopyIntoH (h : Heap) (s : SecretSelector) : Heap × SecretSelector :=
  let s1 := copySecretRefPtr h s.secretReference
  (s1.1, { s with secretReference := s1.2 })

/-- Fresh copy of a `*xpv1.Selector` field: `*out = new(v1.Selector);
(*in).DeepCopyInto(*out)` — deep-copy the pointee, then allocate a cell
for the copy. -/
def copySelectorPtr (h : Heap) : Option Nat → Heap × Option Nat
  | none => (h, none)
  | some a =>
    match h[a]? with
    | some (.selectorCell s) =>
      let s1 := Selector.deepCopyIntoH h s
      (s1.1 ++ [.selectorCell s1.2], some s1.1.length)
    | _ => (h, some a)

/-- Fresh copy of a `*SecretSelector` field: `*out = new(SecretSelector);
(*in).DeepCopyInto(*out)`. -/
def copySecretSelectorPtr (h : Heap) : Option Nat → Heap × Option Nat
  | none => (h, none)
  | some a =>
    match h[a]? with
    | some (.secretSelectorCell s) =>
      let s1 := SecretSelector.deepCopyIntoH h s
      (s1.1 ++ [.secretSelectorCell s1.2], some s1.1.length)
    | _ => (h, some a)

/-- `SecretParameters.DeepCopyInto` (`src` lines 284-326): `*out = *in`
copies the value fields, then every non-nil pointer field and the `Tags`
slice are replaced by freshly allocated copies, in source order. -/
def SecretParameters.deepCopyIntoH (h : Heap) (p : SecretParameters) :
    Heap × SecretParameters :=
  let s1 := copyStringPtr h p.description
  let s2 := copyStringPtr s1.1 p.kmsKeyID
  let s3 := copyRefPtr s2.1 p.kmsKeyRef
  let s4 := copySelectorPtr s3.1 p.kmsKeySelector
  let s5 := copySecretSelectorPtr s4.1 p.secretRef
  let s6 := copyBoolPtr s5.1 p.forceDeleteWithoutRecovery
  let s7 := copyIntPtr s6.1 p.recoveryWindowInDays
  let s8 := copyTagsPtr s7.1 p.tags
  (s8.1,
    { region := p.region
      description := s1.2
      kmsKeyID := s2.2
      kmsKeyRef := s3.2
      kmsKeySelector := s4.2
      secretRef := s5.2
      forceDeleteWithoutRecovery := s6.2
      recoveryWindowInDays := s7.2
      tags := s8.2 })

/-- `SecretParameters.DeepCopy` (`src` lines 329-336): `nil` in, `nil`
out; otherwise allocate a new `SecretParameters` and `DeepCopyInto` it. -/
def SecretParameters.deepCopyH (h : Heap) :
    Option SecretParameters → Heap × Option SecretParameters
  | none => (h, none)
  | some p =>
    let (h', q) := SecretParameters.deepCopyIntoH h p
    (h', some q)

/-! ### Abstract (pointer-free) view and well-formedness -/

/-- Dereference a `*string` field into its logical content. -/
def readStr (h : Heap) : Option Nat → Option String
  | none => none
  | some a => match h[a]? with | some (.strCell s) => some s | _ => none

/-- Dereference a `*bool` field. -/
def readBool (h : Heap) : Option Nat → Option Bool
  | none => none
  | some a => match h[a]? with | some (.boolCell b) => some b | _ => none

/-- Dereference an `*int64` field. -/
def readInt (h : Heap) : Option Nat → Option Int
  | none => none
  | some a => match h[a]? with | some (.intCell n) => some n | _ => none

/-- Dereference a `*Reference` field. -/
def readRef (h : Heap) : Option Nat → Option Reference
  | none => none
  | some a => match h[a]? with | some (.refCell r) => some r | _ => none

/-- Dereference a `*SecretReference` field. -/
def readSecretRef (h : Heap) : Option Nat → Option SecretReference
  | none => none
  | some a => match h[a]? with | some (.secretRefCell r) => some r | _ => none

/-- Dereference a labels map. -/
def readLabels (h : Heap) : Option Nat → Option (List (String × String))
  | none => none
  | some a => match h[a]? with | some (.labelsCell ls) => some ls | _ => none

/-- Dereference the `Tags` slice into its element list. -/
def readTags (h : Heap) : Option Nat → Option (List Tag)
  | none => none
  | some a => match h[a]? with | some (.tagsCell ts) => some ts | _ => none

/-- The logical content of a `Selector`. -/
structure AbsSelector where
  matchControllerRef : Option Bool
  matchLabels : Option (List (String × String))
deriving DecidableEq, Repr

/-- The logical content of a `SecretSelector`. -/
structure AbsSecretSelector where
  key : String
  secretReference : Option SecretReference
deriving DecidableEq, Repr

/-- The logical content of a `SecretParameters`: every pointer resolved
through the heap. Structural equality of copies is stated on this view. -/
structure AbsSecretParameters where
  region : String
  description : Option String
  kmsKeyID : Option String
  kmsKeyRef : Option Reference
  kmsKeySelector : Option AbsSelector
  secretRef : Option AbsSecretSelector
  forceDeleteWithoutRecovery : Option Bool
  recoveryWindowInDays : Option Int
  tags : Option (List Tag)
deriving DecidableEq, Repr

/-- Resolve a `Selector` value. -/
def absSelector (h : Heap) (s : Selector) : AbsSelector :=
  ⟨readBool h s.matchControllerRef, readLabels h s.matchLabels⟩

/-- Dereference a `*Selector` field into its logical content. -/
def readSelector (h : Heap) : Option Nat → Option AbsSelector
  | none => none
  | some a =>
    match h[a]? with
    | some (.selectorCell s) => some (absSelector h s)
    | _ => none

/-- Resolve a `SecretSelector` value. -/
def absSecretSelector (h : Heap) (s : SecretSelector) : AbsSecretSelector :=
  ⟨s.key, readSecretRef h s.secretReference⟩

/-- Dereference a `*SecretSelector` field into its logical content. -/
def readSecretSelector (h : Heap) : Option Nat → Option AbsSecretSelector
  | none => none
  | some a =>
    match h[a]? with
    | some (.secretSelectorCell s) => some (absSecretSelector h s)
    | _ => none

/-- Resolve a whole `SecretParameters` into its logical content. -/
def absParams (h : Heap) (p : SecretParameters) : AbsSecretParameters :=
  { region := p.region
    description := readStr h p.description
    kmsKeyID := readStr h p.kmsKeyID
    kmsKeyRef := readRef h p.kmsKeyRef
    kmsKeySelector := readSelector h p.kmsKeySelector
    secretRef := readSecretSelector h p.secretRef
    forceDeleteWithoutRecovery := readBool h p.forceDeleteWithoutRecovery
    recoveryWindowInDays := readInt h p.recoveryWindowInDays
    tags := readTags h p.tags }

/-- A pointer field is well-formed when it is nil or every dereference a
reader would take succeeds (the cell exists and has the right type). -/
def wfStrPtr (h : Heap) : Option Nat → Bool
  | none => true
  | some a => match h[a]? with | some (.strCell _) => true | _ => false

/-- Well-formedness of a `*bool` field. -/
def wfBoolPtr (h : Heap) : Option Nat → Bool
  | none => true
  | some a => match h[a]? with | some (.boolCell _) => true | _ => false

/-- Well-formedness of an `*int64` field. -/
def wfIntPtr (h : Heap) : Option Nat → Bool
  | none => true
  | some a => match h[a]? with | some (.intCell _) => true | _ => false

/-- Well-formedness of a `*Reference` field. -/
def wfRefPtr (h : Heap) : Option Nat → Bool
  | none => true
  | some a => match h[a]? with | some (.refCell _) => true | _ => false

/-- Well-formedness of a `*SecretReference` field. -/
def wfSecretRefPtr (h : Heap) : Option Nat → Bool
  | none => true
  | some a => match h[a]? with | some (.secretRefCell _) => true | _ => false

/-- Well-formedness of a labels-map field. -/
def wfLabelsPtr (h : Heap) : Option Nat → Bool
  | none => true
  | some a => match h[a]? with | some (.labelsCell _) => true | _ => false

/-- Well-formedness of the `Tags` slice field. -/
def wfTagsPtr (h : Heap) : Option Nat → Bool
  | none => true
  | some a => match h[a]? with | some (.tagsCell _) => true | _ => false

/-- Well-formedness of a `*Selector` field, including the pointee's own
reference fields. -/
def wfSelectorPtr (h : Heap) : Option Nat → Bool
  | none => true
  | some a =>
    match h[a]? with
    | some (.selectorCell s) => wfBoolPtr h s.matchControllerRef && wfLabelsPtr h s.matchLabels
    | _ => false

/-- Well-formedness of a `*SecretSelector` field, including the pointee's
reference field. -/
def wfSecretSelectorPtr (h : Heap) : Option Nat → Bool
  | none => true
  | some a =>
    match h[a]? with
    | some (.secretSelectorCell s) => wfSecretRefPtr h s.secretReference
    | _ => false

/-- Well-formedness of a whole `SecretParameters` in a heap. -/
def wfParams (h : Heap) (p : SecretParameters) : Bool :=
  wfStrPtr h p.description && wfStrPtr h p.kmsKeyID && wfRefPtr h p.kmsKeyRef &&
  wfSelectorPtr h p.kmsKeySelector && wfSecretSelectorPtr h p.secretRef &&
  wfBoolPtr h p.forceDeleteWithoutRecovery && wfIntPtr h p.recoveryWindowInDays &&
  wfTagsPtr h p.tags

/-- The addresses of an optional pointer. -/
def ptrAddrs : Option Nat → List Nat
  | none => []
  | some a => [a]

/-- All heap addresses reachable from a `*Selector` field. -/
def selectorAddrs (h : Heap) (p : Option Nat) : List Nat :=
  ptrAddrs p ++
    (match p with
     | some a =>
       match h[a]? with
       | some (.selectorCell s) => ptrAddrs s.matchControllerRef ++ ptrAddrs s.matchLabels
       | _ => []
     | none => [])

/-- All heap addresses reachable from a `*SecretSelector` field. -/
def secretSelectorAddrs (h : Heap) (p : Option Nat) : List Nat :=
  ptrAddrs p ++
    (match p with
     | some a =>
       match h[a]? with
       | some (.secretSelectorCell s) => ptrAddrs s.secretReference
       | _ => []
     | none => [])

/-- All heap addresses reachable from a `SecretParameters`: the storage
its pointer fields and `Tags` slice refer to, including nested storage. -/
def paramsAddrs (h : Heap) (p : SecretParameters) : List Nat :=
  ptrAddrs p.description ++ ptrAddrs p.kmsKeyID ++ ptrAddrs p.kmsKeyRef ++
  selectorAddrs h p.kmsKeySelector ++ secretSelectorAddrs h p.secretRef ++
  ptrAddrs p.forceDeleteWithoutRecovery ++ ptrAddrs p.recoveryWindowInDays ++
  ptrAddrs p.tags

/-! ### Proof infrastructure for the deep-copy functions -/

/-- The cell a pointer refers to, if any. -/
def deref (h : Heap) : Option Nat → Option Cell
  | none => none
  | some a => h[a]?

/-- The seven pointer copies of flat (pointer-free) pointees share one
shape: read the cell, allocate an identical fresh cell. `copyFlat sel`
is that shape, with `sel` discriminating the expected cell type. -/
def copyFlat (sel : Cell → Bool) (h : Heap) : Option Nat → Heap × Option Nat
  | none => (h, none)
  | some a =>
    match h[a]? with
    | some c => if sel c then (h ++ [c], some h.length) else (h, some a)
    | none => (h, some a)

/-- Discriminator for string cells. -/
def selStr : Cell → Bool
  | .strCell _ => true
  | _ => false

/-- Discriminator for bool cells. -/
def selBool : Cell → Bool
  | .boolCell _ => true
  | _ => false

/-- Discriminator for int cells. -/
def selInt : Cell → Bool
  | .intCell _ => true
  | _ => false

/-- Discriminator for reference cells. -/
def selRef : Cell → Bool
  | .refCell _ => true
  | _ => false

/-- Discriminator for secret-reference cells. -/
def selSecretRef : Cell → Bool
  | .secretRefCell _ => true
  | _ => false

/-- Discriminator for labels-map cells. -/
def selLabels : Cell → Bool
  | .labelsCell _ => true
  | _ => false

/-- Discriminator for tags-array cells. -/
def selTags : Cell → Bool
  | .tagsCell _ => true
  | _ => false

/-- Well-formedness of a flat pointer field, generically. -/
def wfFlat (sel : Cell → Bool) (h : Heap) : Option Nat → Bool
  | none => true
  | some a =>
    match h[a]? with
    | some c => sel c
    | none => false

/-- Two heaps agree on every address below `n`. -/
def agreeBelow (h h₂ : Heap) (n : Nat) : Prop :=
  ∀ b, b < n → h₂[b]? = h[b]?

/-- A sample heap holding one pointee of every kind used by
`SecretParameters`. -/
def sampleHeap : Heap :=
  [.strCell "a description",
   .strCell "arn:aws:kms:key",
   .refCell ⟨"kms-key-name"⟩,
   .boolCell true,
   .labelsCell [("app", "demo")],
   .selectorCell ⟨some 3, some 4⟩,
   .secretRefCell ⟨"creds", "crossplane-system"⟩,
   .secretSelectorCell ⟨"password", some 6⟩,
   .boolCell false,
   .intCell 30,
   .tagsCell [⟨"env", "prod"⟩]]

/-- Sample parameters with every optional field set, pointing into
`sampleHeap`. -/
def sampleParams : SecretParameters :=
  ⟨"eu-west-1", some 0, some 1, some 2, some 5, some 7, some 8, some 9, some 10⟩

/-! Sanity checks on concrete inputs. -/

example : wfParams sampleHeap sampleParams = true := by decide

example :
    absParams (SecretParameters.deepCopyIntoH sampleHeap sampleParams).1
      (SecretParameters.deepCopyIntoH sampleHeap sampleParams).2 =
    absParams sampleHeap sampleParams := by decide

example :
    Observe (constClient (.error notFoundErr) none none) okKube
      (.userPolicyAttachment sampleCR) =
    ⟨.userPolicyAttachment sampleCR, {}, none, []⟩ := by decide

example :
    Observe (constClient (.error boom) none none) okKube
      (.userPolicyAttachment sampleCR) =
    ⟨.userPolicyAttachment sampleCR, {}, some (.wrap boom errGet), []⟩ := by decide

example :
    (Observe (constClient (.ok [⟨some sampleCR.forProvider.policyARN, some "nm"⟩]) none none)
      okKube (.userPolicyAttachment sampleCR)).obs =
    { resourceExists := true, resourceUpToDate := true } := by decide

example :
    (Create (constClient (.ok []) (some boom) none) (.userPolicyAttachment sampleCR)).err =
    some (.wrap boom errAttach) := by decide

example :
    Delete (constClient (.ok []) none (some notFoundErr)) (.userPolicyAttachment sampleCR) =
    ⟨.userPolicyAttachment { sampleCR with conditions := [Deleting] }, none⟩ := by decide

/-- The conditions of a managed resource (empty for foreign kinds). -/
def conditionsOf : Managed → List Condition
  | .userPolicyAttachment cr => cr.conditions
  | .foreign _ => []

/-- The observed-status sub-object of a managed resource. -/
def atProviderOf : Managed → Option IAMUserPolicyAttachmentObservation
  | .userPolicyAttachment cr => some cr.atProvider
  | .foreign _ => none

/-! ## Helper lemmas on the adapter -/

/-- Setting a condition makes it a member of the condition set. -/
lemma mem_setCondition (conds : List Condition) (c : Condition) :
    c ∈ setCondition conds c := by
  unfold setCondition
  split
  · rename_i hany
    rw [List.any_eq_true] at hany
    obtain ⟨x, hx, hxc⟩ := hany
    exact List.mem_map.mpr ⟨x, hx, by simp [hxc]⟩
  · exact List.mem_append_right _ (List.mem_singleton.mpr rfl)

/-- The search loop returns a policy whose dereferenced ARN is the
desired one. -/
lemma findAttachedPolicy_some_arn (arn : String) (ps : List AttachedPolicy)
    (pol : AttachedPolicy) (h : findAttachedPolicy arn ps = some pol) :
    stringValue pol.policyArn = arn := by
  induction ps with
  | nil => simp [findAttachedPolicy] at h
  | cons p ps ih =>
    unfold findAttachedPolicy at h
    split at h
    · rename_i heq
      cases h
      exact heq.symm
    · exact ih h

/-- The search loop succeeds exactly when some listed policy carries the
desired ARN. -/
lemma findAttachedPolicy_isSome_iff (arn : String) (ps : List AttachedPolicy) :
    (findAttachedPolicy arn ps).isSome = true ↔
      ∃ p ∈ ps, stringValue p.policyArn = arn := by
  induction ps with
  | nil => simp [findAttachedPolicy]
  | cons p ps ih =>
    unfold findAttachedPolicy
    by_cases heq : arn = stringValue p.policyArn
    · simp [heq]
    · simp only [if_neg heq, ih, List.mem_cons]
      constructor
      · rintro ⟨q, hq, hqa⟩
        exact ⟨q, Or.inr hq, hqa⟩
      · rintro ⟨q, hq | hq, hqa⟩
        · exact absurd hqa.symm (hq ▸ heq)
        · exact ⟨q, hq, hqa⟩

/-- The search loop is the first-match search. -/
lemma findAttachedPolicy_eq_find? (arn : String) (ps : List AttachedPolicy) :
    findAttachedPolicy arn ps = ps.find? (fun p => arn == stringValue p.policyArn) := by
  induction ps with
  | nil => rfl
  | cons p ps ih =>
    unfold findAttachedPolicy
    by_cases heq : arn = stringValue p.policyArn
    · rw [if_pos heq, List.find?_cons_of_pos _ (by simp [heq])]
    · rw [if_neg heq, List.find?_cons_of_neg _ (by simp [heq]), ih]

/-- Late initialization cannot change the parameters of a matched
attachment: the match already forced the one optional field to agree. -/
lemma lateInitialize_matched (p : IAMUserPolicyAttachmentParameters)
    (pol : AttachedPolicy) (h : stringValue pol.policyArn = p.policyARN) :
    LateInitializeUserPolicy p pol = p := by
  obtain ⟨un, pa⟩ := p
  unfold LateInitializeUserPolicy LateInitializeString
  by_cases hp : pa = ""
  · cases hpol : pol.policyArn with
    | none => simp [hp, hpol]
    | some v =>
      have hv : v = "" := by
        rw [hpol] at h
        simpa [stringValue, hp] using h
      simp [hp, hpol, hv]
  · simp [hp]

/-- On a matched attachment the late-initialization step is a no-op: no
change, no store write, no error. -/
lemma lateInitAndPersist_matched (kube : IAMUserPolicyAttachment → Option Err)
    (cr : IAMUserPolicyAttachment) (pol : AttachedPolicy)
    (h : stringValue pol.policyArn = cr.forProvider.policyARN) :
    lateInitAndPersist kube cr pol = ⟨cr, none, []⟩ := by
  unfold lateInitAndPersist
  simp [lateInitialize_matched cr.forProvider pol h]

/-- Full characterization of Observe on a found attachment. -/
lemma Observe_found (client : UserPolicyAttachmentClient)
    (kube : IAMUserPolicyAttachment → Option Err) (cr : IAMUserPolicyAttachment)
    (ps : List AttachedPolicy) (pol : AttachedPolicy)
    (hls : client.listAttachedUserPolicies cr.forProvider.userName = .ok ps)
    (hf : findAttachedPolicy cr.forProvider.policyARN ps = some pol) :
    Observe client kube (.userPolicyAttachment cr) =
      ⟨.userPolicyAttachment
          { cr with
            conditions := setCondition cr.conditions Available,
            atProvider := ⟨stringValue pol.policyArn⟩ },
        { resourceExists := true, resourceUpToDate := true }, none, []⟩ := by
  have hm : stringValue pol.policyArn = cr.forProvider.policyARN :=
    findAttachedPolicy_some_arn _ _ _ hf
  show observeListed kube cr (client.listAttachedUserPolicies cr.forProvider.userName) = _
  rw [hls]
  show observeMatched kube cr (findAttachedPolicy cr.forProvider.policyARN ps) = _
  rw [hf]
  show observeFound kube cr pol = _
  unfold observeFound
  rw [lateInitAndPersist_matched kube cr pol hm]

/-- Observe on a failed list call. -/
lemma Observe_listError (client : UserPolicyAttachmentClient)
    (kube : IAMUserPolicyAttachment → Option Err) (cr : IAMUserPolicyAttachment)
    (e : Err) (hls : client.listAttachedUserPolicies cr.forProvider.userName = .error e) :
    Observe client kube (.userPolicyAttachment cr) =
      ⟨.userPolicyAttachment cr, {},
        Wrap (Ignore IsErrorNotFound (some e)) errGet, []⟩ := by
  show observeListed kube cr (client.listAttachedUserPolicies cr.forProvider.userName) = _
  rw [hls]
  rfl

/-- Observe on a successful list with no match. -/
lemma Observe_noMatch (client : UserPolicyAttachmentClient)
    (kube : IAMUserPolicyAttachment → Option Err) (cr : IAMUserPolicyAttachment)
    (ps : List AttachedPolicy)
    (hls : client.listAttachedUserPolicies cr.forProvider.userName = .ok ps)
    (hf : findAttachedPolicy cr.forProvider.policyARN ps = none) :
    Observe client kube (.userPolicyAttachment cr) =
      ⟨.userPolicyAttachment cr, { resourceExists := false }, none, []⟩ := by
  show observeListed kube cr (client.listAttachedUserPolicies cr.forProvider.userName) = _
  rw [hls]
  show observeMatched kube cr (findAttachedPolicy cr.forProvider.policyARN ps) = _
  rw [hf]
  rfl

/-! ## Claim theorems: the lifecycle adapter -/

/-- C1 counterexample: the claim is false as stated. Update, invoked on a
managed resource that is not an IAMUserPolicyAttachment, returns a nil
error rather than the unexpected-object error: it has no type check at
all (`controller.go` lines 148-153 ignore both arguments). -/
theorem C1_counterexample :
    ¬ ((Update (constClient (.ok []) none none) okKube (.foreign ⟨"wrong-kind"⟩)).err =
        some (.str errUnexpectedObject)) := by decide

/-- C1 (amended): Observe, Create and Delete each return the
unexpected-object error on a wrong-typed input and leave it unmodified;
Update performs no type check and instead returns a nil error, also
leaving the input unmodified. -/
theorem C1_amended_thm (client : UserPolicyAttachmentClient)
    (kube : IAMUserPolicyAttachment → Option Err) (o : ForeignManaged) :
    Observe client kube (.foreign o) =
      ⟨.foreign o, {}, some (.str errUnexpectedObject), []⟩ ∧
    Create client (.foreign o) = ⟨.foreign o, {}, some (.str errUnexpectedObject)⟩ ∧
    Delete client (.foreign o) = ⟨.foreign o, some (.str errUnexpectedObject)⟩ ∧
    Update client kube (.foreign o) = ⟨.foreign o, {}, none⟩ :=
  ⟨rfl, rfl, rfl, rfl⟩

/-- C2: on a correctly-typed input, a provider list failure classified as
not-found makes Observe return exists=false with a nil error and the
object (hence its conditions) unchanged; the same result holds when the
list succeeds but no attached policy carries the desired ARN. -/
theorem C2_notFound_observe (client : UserPolicyAttachmentClient)
    (kube : IAMUserPolicyAttachment → Option Err) (cr : IAMUserPolicyAttachment) :
    (∀ e, client.listAttachedUserPolicies cr.forProvider.userName = .error e →
      IsErrorNotFound e = true →
      Observe client kube (.userPolicyAttachment cr) =
        ⟨.userPolicyAttachment cr, { resourceExists := false }, none, []⟩) ∧
    (∀ ps, client.listAttachedUserPolicies cr.forProvider.userName = .ok ps →
      findAttachedPolicy cr.forProvider.policyARN ps = none →
      Observe client kube (.userPolicyAttachment cr) =
        ⟨.userPolicyAttachment cr, { resourceExists := false }, none, []⟩) := by
  constructor
  · intro e hls hnf
    rw [Observe_listError client kube cr e hls]
    simp [Ignore, hnf, Wrap]
  · intro ps hls hf
    exact Observe_noMatch client kube cr ps hls hf

/-- C2 witness: both branches at concrete inputs. -/
theorem C2_witness :
    Observe (constClient (.error notFoundErr) none none) okKube
        (.userPolicyAttachment sampleCR) =
      ⟨.userPolicyAttachment sampleCR, { resourceExists := false }, none, []⟩ ∧
    Observe (constClient (.ok [⟨some "arn:other", none⟩]) none none) okKube
        (.userPolicyAttachment sampleCR) =
      ⟨.userPolicyAttachment sampleCR, { resourceExists := false }, none, []⟩ :=
  ⟨(C2_notFound_observe (constClient (.error notFoundErr) none none) okKube sampleCR).1
      notFoundErr rfl (by decide),
   (C2_notFound_observe (constClient (.ok [⟨some "arn:other", none⟩]) none none) okKube
      sampleCR).2 [⟨some "arn:other", none⟩] rfl (by decide)⟩

/-- C3: when Observe finds the attached policy it sets Available and its
upToDate answer equals the comparison of the desired configuration
against the observed one. A found attachment is always semantically
identical — its observed ARN equals the desired ARN, because the match
loop is itself that comparison — so upToDate is true on every found
resource, and the found-but-divergent case is vacuous. -/
theorem C3_found_available_upToDate (client : UserPolicyAttachmentClient)
    (kube : IAMUserPolicyAttachment → Option Err) (cr : IAMUserPolicyAttachment)
    (ps : List AttachedPolicy) (pol : AttachedPolicy)
    (hls : client.listAttachedUserPolicies cr.forProvider.userName = .ok ps)
    (hf : findAttachedPolicy cr.forProvider.policyARN ps = some pol) :
    (Observe client kube (.userPolicyAttachment cr)).obs.resourceExists = true ∧
    Available ∈ conditionsOf (Observe client kube (.userPolicyAttachment cr)).mgd ∧
    (Observe client kube (.userPolicyAttachment cr)).obs.resourceUpToDate =
      (cr.forProvider.policyARN == stringValue pol.policyArn) ∧
    stringValue pol.policyArn = cr.forProvider.policyARN := by
  have hm : stringValue pol.policyArn = cr.forProvider.policyARN :=
    findAttachedPolicy_some_arn _ _ _ hf
  rw [Observe_found client kube cr ps pol hls hf]
  refine ⟨rfl, mem_setCondition _ _, ?_, hm⟩
  simp [hm]

/-- C3 witness: a concrete found attachment. -/
theorem C3_witness :
    (Observe (constClient (.ok [⟨some sampleCR.forProvider.policyARN, some "nm"⟩]) none none)
        okKube (.userPolicyAttachment sampleCR)).obs.resourceExists = true ∧
    Available ∈ conditionsOf (Observe
        (constClient (.ok [⟨some sampleCR.forProvider.policyARN, some "nm"⟩]) none none)
        okKube (.userPolicyAttachment sampleCR)).mgd ∧
    (Observe (constClient (.ok [⟨some sampleCR.forProvider.policyARN, some "nm"⟩]) none none)
        okKube (.userPolicyAttachment sampleCR)).obs.resourceUpToDate =
      (sampleCR.forProvider.policyARN ==
        stringValue (some sampleCR.forProvider.policyARN)) ∧
    stringValue (some sampleCR.forProvider.policyARN) = sampleCR.forProvider.policyARN :=
  C3_found_available_upToDate
    (constClient (.ok [⟨some sampleCR.forProvider.policyARN, some "nm"⟩]) none none)
    okKube sampleCR [⟨some sampleCR.forProvider.policyARN, some "nm"⟩]
    ⟨some sampleCR.forProvider.policyARN, some "nm"⟩ rfl (by decide)

/-- C4: on a correctly-typed input, Create sets the Creating condition on
the object, and its error is exactly the wrapped outcome of the attach
call — so the condition is set whether the provider call succeeds or
fails (the client, and thus the call's outcome, is arbitrary here). -/
theorem C4_create_sets_creating (client : UserPolicyAttachmentClient)
    (cr : IAMUserPolicyAttachment) :
    Creating ∈ conditionsOf (Create client (.userPolicyAttachment cr)).mgd ∧
    (Create client (.userPolicyAttachment cr)).err =
      Wrap (client.attachUserPolicy cr.forProvider.policyARN cr.forProvider.userName)
        errAttach := by
  constructor
  · exact mem_setCondition cr.conditions Creating
  · rfl

/-- C5: on a correctly-typed input, Delete sets the Deleting condition on
the object whatever the detach call returns, and when the detach call
fails with an error classified as not-found, Delete returns a nil error
(idempotent delete). -/
theorem C5_delete_deleting_idempotent (client : UserPolicyAttachmentClient)
    (cr : IAMUserPolicyAttachment) :
    Deleting ∈ conditionsOf (Delete client (.userPolicyAttachment cr)).mgd ∧
    (∀ e, client.detachUserPolicy cr.forProvider.policyARN cr.forProvider.userName = some e →
      IsErrorNotFound e = true →
      (Delete client (.userPolicyAttachment cr)).err = none) := by
  constructor
  · exact mem_setCondition cr.conditions Deleting
  · intro e hd hnf
    show Wrap (Ignore IsErrorNotFound
      (client.detachUserPolicy cr.forProvider.policyARN cr.forProvider.userName))
      errDetach = none
    rw [hd]
    simp [Ignore, hnf, Wrap]

/-- C5 witness: a concrete not-found detach response. -/
theorem C5_witness :
    Deleting ∈ conditionsOf (Delete (constClient (.ok []) none (some notFoundErr))
        (.userPolicyAttachment sampleCR)).mgd ∧
    (Delete (constClient (.ok []) none (some notFoundErr))
        (.userPolicyAttachment sampleCR)).err = none :=
  ⟨(C5_delete_deleting_idempotent (constClient (.ok []) none (some notFoundErr)) sampleCR).1,
   (C5_delete_deleting_idempotent (constClient (.ok []) none (some notFoundErr)) sampleCR).2
      notFoundErr rfl (by decide)⟩

/-- C6: Update is a no-op returning success on every input — the zero
update result, a nil error, and the input object returned untouched; the
result does not depend on the provider client or the cluster store, so no
provider call can influence it. -/
theorem C6_update_noop (client : UserPolicyAttachmentClient)
    (kube : IAMUserPolicyAttachment → Option Err) (mgd : Managed) :
    Update client kube mgd = ⟨mgd, {}, none⟩ := rfl

/-- C7: the late-initialization step of Observe (`controller.go` lines
112-118, embedded as lateInitAndPersist) writes the object to the cluster
store exactly when late initialization changed the desired-state
parameters, and a failing persistence call surfaces as an error wrapped
with errKubeUpdateFailed; on the found path Observe issues exactly the
writes of that step (none, in fact, since a matched attachment never
changes under late initialization). -/
theorem C7_lateInit_compare_and_write (kube : IAMUserPolicyAttachment → Option Err)
    (cr : IAMUserPolicyAttachment) (pol : AttachedPolicy) :
    ((lateInitAndPersist kube cr pol).kubeWrites ≠ [] ↔
      LateInitializeUserPolicy cr.forProvider pol ≠ cr.forProvider) ∧
    (∀ e, LateInitializeUserPolicy cr.forProvider pol ≠ cr.forProvider →
      kube { cr with forProvider := LateInitializeUserPolicy cr.forProvider pol } = some e →
      (lateInitAndPersist kube cr pol).err = some (.wrap e errKubeUpdateFailed)) ∧
    (∀ client ps, client.listAttachedUserPolicies cr.forProvider.userName = .ok ps →
      findAttachedPolicy cr.forProvider.policyARN ps = some pol →
      (Observe client kube (.userPolicyAttachment cr)).kubeWrites =
        (lateInitAndPersist kube cr pol).kubeWrites) := by
  refine ⟨?_, ?_, ?_⟩
  · unfold lateInitAndPersist
    by_cases hch : cr.forProvider = LateInitializeUserPolicy cr.forProvider pol
    · rw [if_pos hch]
      simp [← hch]
    · rw [if_neg hch]
      cases hk : kube { cr with forProvider := LateInitializeUserPolicy cr.forProvider pol } <;>
        simpa using fun h => hch h.symm
  · intro e hch hk
    unfold lateInitAndPersist
    rw [if_neg (fun h => hch h.symm), hk]
  · intro client ps hls hf
    have hm : stringValue pol.policyArn = cr.forProvider.policyARN :=
      findAttachedPolicy_some_arn _ _ _ hf
    rw [Observe_found client kube cr ps pol hls hf,
      lateInitAndPersist_matched kube cr pol hm]

/-- C7 witness: a resource whose optional ARN is unset against an
observed policy carrying one (so late initialization changes the spec and
the failing store write surfaces wrapped), plus the found-path conjunct
at a matched concrete input. -/
theorem C7_witness :
    ((lateInitAndPersist (fun _ => some boom) ⟨⟨"u", ""⟩, [], ⟨""⟩⟩
        ⟨some "arn:x", none⟩).kubeWrites ≠ [] ↔
      LateInitializeUserPolicy (⟨"u", ""⟩ : IAMUserPolicyAttachmentParameters)
          ⟨some "arn:x", none⟩ ≠ ⟨"u", ""⟩) ∧
    (lateInitAndPersist (fun _ => some boom) ⟨⟨"u", ""⟩, [], ⟨""⟩⟩
        ⟨some "arn:x", none⟩).err = some (.wrap boom errKubeUpdateFailed) ∧
    (Observe (constClient (.ok [⟨some sampleCR.forProvider.policyARN, none⟩]) none none)
        okKube (.userPolicyAttachment sampleCR)).kubeWrites =
      (lateInitAndPersist okKube sampleCR ⟨some sampleCR.forProvider.policyARN, none⟩).kubeWrites :=
  ⟨(C7_lateInit_compare_and_write (fun _ => some boom) ⟨⟨"u", ""⟩, [], ⟨""⟩⟩
      ⟨some "arn:x", none⟩).1,
   (C7_lateInit_compare_and_write (fun _ => some boom) ⟨⟨"u", ""⟩, [], ⟨""⟩⟩
      ⟨some "arn:x", none⟩).2.1 boom (by decide) rfl,
   (C7_lateInit_compare_and_write okKube sampleCR
      ⟨some sampleCR.forProvider.policyARN, none⟩).2.2
      (constClient (.ok [⟨some sampleCR.forProvider.policyARN, none⟩]) none none)
      [⟨some sampleCR.forProvider.policyARN, none⟩] rfl (by decide)⟩

/-- C8: every provider error surfaced by a lifecycle method is wrapped
with the static tag of the failing operation with the cause preserved
inside the wrapper, and no provider error is swallowed except the
not-found cases of Observe and Delete: an other-than-not-found list error
surfaces as errGet, any attach error surfaces as errAttach, an
other-than-not-found detach error surfaces as errDetach, and a successful
call yields a nil error. -/
theorem C8_wrap_policy (client : UserPolicyAttachmentClient)
    (kube : IAMUserPolicyAttachment → Option Err) (cr : IAMUserPolicyAttachment) :
    (∀ e, client.listAttachedUserPolicies cr.forProvider.userName = .error e →
      IsErrorNotFound e = false →
      (Observe client kube (.userPolicyAttachment cr)).err = some (.wrap e errGet)) ∧
    (∀ e, client.listAttachedUserPolicies cr.forProvider.userName = .error e →
      IsErrorNotFound e = true →
      (Observe client kube (.userPolicyAttachment cr)).err = none) ∧
    (∀ e, client.attachUserPolicy cr.forProvider.policyARN cr.forProvider.userName = some e →
      (Create client (.userPolicyAttachment cr)).err = some (.wrap e errAttach)) ∧
    (client.attachUserPolicy cr.forProvider.policyARN cr.forProvider.userName = none →
      (Create client (.userPolicyAttachment cr)).err = none) ∧
    (∀ e, client.detachUserPolicy cr.forProvider.policyARN cr.forProvider.userName = some e →
      IsErrorNotFound e = false →
      (Delete client (.userPolicyAttachment cr)).err = some (.wrap e errDetach)) ∧
    (∀ e, client.detachUserPolicy cr.forProvider.policyARN cr.forProvider.userName = some e →
      IsErrorNotFound e = true →
      (Delete client (.userPolicyAttachment cr)).err = none) ∧
    (client.detachUserPolicy cr.forProvider.policyARN cr.forProvider.userName = none →
      (Delete client (.userPolicyAttachment cr)).err = none) := by
  refine ⟨?_, ?_, ?_, ?_, ?_, ?_, ?_⟩
  · intro e hls hnf
    rw [Observe_listError client kube cr e hls]
    simp [Ignore, hnf, Wrap]
  · intro e hls hnf
    rw [Observe_listError client kube cr e hls]
    simp [Ignore, hnf, Wrap]
  · intro e ha
    show Wrap (client.attachUserPolicy cr.forProvider.policyARN cr.forProvider.userName)
      errAttach = some (.wrap e errAttach)
    rw [ha]
    rfl
  · intro ha
    show Wrap (client.attachUserPolicy cr.forProvider.policyARN cr.forProvider.userName)
      errAttach = none
    rw [ha]
    rfl
  · intro e hd hnf
    show Wrap (Ignore IsErrorNotFound
      (client.detachUserPolicy cr.forProvider.policyARN cr.forProvider.userName))
      errDetach = some (.wrap e errDetach)
    rw [hd]
    simp [Ignore, hnf, Wrap]
  · intro e hd hnf
    show Wrap (Ignore IsErrorNotFound
      (client.detachUserPolicy cr.forProvider.policyARN cr.forProvider.userName))
      errDetach = none
    rw [hd]
    simp [Ignore, hnf, Wrap]
  · intro hd
    show Wrap (Ignore IsErrorNotFound
      (client.detachUserPolicy cr.forProvider.policyARN cr.forProvider.userName))
      errDetach = none
    rw [hd]
    rfl

/-- C8 witness: each branch of the propagation policy exercised at a
concrete input. -/
theorem C8_witness :
    (Observe (constClient (.error boom) none none) okKube
        (.userPolicyAttachment sampleCR)).err = some (.wrap boom errGet) ∧
    (Observe (constClient (.error notFoundErr) none none) okKube
        (.userPolicyAttachment sampleCR)).err = none ∧
    (Create (constClient (.ok []) (some boom) none)
        (.userPolicyAttachment sampleCR)).err = some (.wrap boom errAttach) ∧
    (Create (constClient (.ok []) none none) (.userPolicyAttachment sampleCR)).err = none ∧
    (Delete (constClient (.ok []) none (some boom))
        (.userPolicyAttachment sampleCR)).err = some (.wrap boom errDetach) ∧
    (Delete (constClient (.ok []) none (some notFoundErr))
        (.userPolicyAttachment sampleCR)).err = none ∧
    (Delete (constClient (.ok []) none none) (.userPolicyAttachment sampleCR)).err = none :=
  ⟨(C8_wrap_policy (constClient (.error boom) none none) okKube sampleCR).1
      boom rfl (by decide),
   (C8_wrap_policy (constClient (.error notFoundErr) none none) okKube sampleCR).2.1
      notFoundErr rfl (by decide),
   (C8_wrap_policy (constClient (.ok []) (some boom) none) okKube sampleCR).2.2.1 boom rfl,
   (C8_wrap_policy (constClient (.ok []) none none) okKube sampleCR).2.2.2.1 rfl,
   (C8_wrap_policy (constClient (.ok []) none (some boom)) okKube sampleCR).2.2.2.2.1
      boom rfl (by decide),
   (C8_wrap_policy (constClient (.ok []) none (some notFoundErr)) okKube
      sampleCR).2.2.2.2.2.1 notFoundErr rfl (by decide),
   (C8_wrap_policy (constClient (.ok []) none none) okKube sampleCR).2.2.2.2.2.2 rfl⟩

/-- C9: on a successful list call, Observe reports existence exactly when
some returned attached policy's ARN equals the desired PolicyARN, and in
that case the first matching policy's ARN is recorded in the
AtProvider.AttachedPolicyARN status field. -/
theorem C9_exists_iff_match (client : UserPolicyAttachmentClient)
    (kube : IAMUserPolicyAttachment → Option Err) (cr : IAMUserPolicyAttachment)
    (ps : List AttachedPolicy)
    (hls : client.listAttachedUserPolicies cr.forProvider.userName = .ok ps) :
    ((Observe client kube (.userPolicyAttachment cr)).obs.resourceExists = true ↔
      ∃ p ∈ ps, stringValue p.policyArn = cr.forProvider.policyARN) ∧
    (∀ pol, ps.find? (fun p => cr.forProvider.policyARN == stringValue p.policyArn) = some pol →
      atProviderOf (Observe client kube (.userPolicyAttachment cr)).mgd =
        some ⟨stringValue pol.policyArn⟩) := by
  constructor
  · cases hf : findAttachedPolicy cr.forProvider.policyARN ps with
    | none =>
      rw [Observe_noMatch client kube cr ps hls hf]
      have := (findAttachedPolicy_isSome_iff cr.forProvider.policyARN ps).symm
      rw [hf] at this
      simpa using this
    | some pol =>
      rw [Observe_found client kube cr ps pol hls hf]
      have := (findAttachedPolicy_isSome_iff cr.forProvider.policyARN ps)
      rw [hf] at this
      simpa using this
  · intro pol hfind
    have hf : findAttachedPolicy cr.forProvider.policyARN ps = some pol := by
      rw [findAttachedPolicy_eq_find? cr.forProvider.policyARN ps]
      exact hfind
    rw [Observe_found client kube cr ps pol hls hf]
    rfl

/-- C9 witness: a list with a non-matching and then a matching policy —
existence holds and the first matching ARN lands in the status. -/
theorem C9_witness :
    ((Observe (constClient
        (.ok [⟨some "arn:other", none⟩, ⟨some sampleCR.forProvider.policyARN, none⟩])
        none none) okKube (.userPolicyAttachment sampleCR)).obs.resourceExists = true ↔
      ∃ p ∈ [(⟨some "arn:other", none⟩ : AttachedPolicy),
          ⟨some sampleCR.forProvider.policyARN, none⟩],
        stringValue p.policyArn = sampleCR.forProvider.policyARN) ∧
    atProviderOf (Observe (constClient
        (.ok [⟨some "arn:other", none⟩, ⟨some sampleCR.forProvider.policyARN, none⟩])
        none none) okKube (.userPolicyAttachment sampleCR)).mgd =
      some ⟨stringValue (some sampleCR.forProvider.policyARN)⟩ :=
  ⟨(C9_exists_iff_match (constClient
      (.ok [⟨some "arn:other", none⟩, ⟨some sampleCR.forProvider.policyARN, none⟩])
      none none) okKube sampleCR
      [⟨some "arn:other", none⟩, ⟨some sampleCR.forProvider.policyARN, none⟩] rfl).1,
   (C9_exists_iff_match (constClient
      (.ok [⟨some "arn:other", none⟩, ⟨some sampleCR.forProvider.policyARN, none⟩])
      none none) okKube sampleCR
      [⟨some "arn:other", none⟩, ⟨some sampleCR.forProvider.policyARN, none⟩] rfl).2
      ⟨some sampleCR.forProvider.policyARN, none⟩ (by decide)⟩

/-! ## Helper lemmas for the deep-copy development -/

lemma copyStringPtr_eq (h : Heap) (p : Option Nat) :
    copyStringPtr h p = copyFlat selStr h p := by
  cases p with
  | none => rfl
  | some a =>
    cases hc : h[a]? with
    | none => simp [copyStringPtr, copyFlat, alloc, hc]
    | some c => cases c <;> simp [copyStringPtr, copyFlat, alloc, hc, selStr]

lemma copyBoolPtr_eq (h : Heap) (p : Option Nat) :
    copyBoolPtr h p = copyFlat selBool h p := by
  cases p with
  | none => rfl
  | some a =>
    cases hc : h[a]? with
    | none => simp [copyBoolPtr, copyFlat, alloc, hc]
    | some c => cases c <;> simp [copyBoolPtr, copyFlat, alloc, hc, selBool]

lemma copyIntPtr_eq (h : Heap) (p : Option Nat) :
    copyIntPtr h p = copyFlat selInt h p := by
  cases p with
  | none => rfl
  | some a =>
    cases hc : h[a]? with
    | none => simp [copyIntPtr, copyFlat, alloc, hc]
    | some c => cases c <;> simp [copyIntPtr, copyFlat, alloc, hc, selInt]

lemma copyRefPtr_eq (h : Heap) (p : Option Nat) :
    copyRefPtr h p = copyFlat selRef h p := by
  cases p with
  | none => rfl
  | some a =>
    cases hc : h[a]? with
    | none => simp [copyRefPtr, copyFlat, alloc, hc]
    | some c => cases c <;> simp [copyRefPtr, copyFlat, alloc, hc, selRef]

lemma copySecretRefPtr_eq (h : Heap) (p : Option Nat) :
    copySecretRefPtr h p = copyFlat selSecretRef h p := by
  cases p with
  | none => rfl
  | some a =>
    cases hc : h[a]? with
    | none => simp [copySecretRefPtr, copyFlat, alloc, hc]
    | some c => cases c <;> simp [copySecretRefPtr, copyFlat, alloc, hc, selSecretRef]

lemma copyLabelsPtr_eq (h : Heap) (p : Option Nat) :
    copyLabelsPtr h p = copyFlat selLabels h p := by
  cases p with
  | none => rfl
  | some a =>
    cases hc : h[a]? with
    | none => simp [copyLabelsPtr, copyFlat, alloc, hc]
    | some c => cases c <;> simp [copyLabelsPtr, copyFlat, alloc, hc, selLabels]

lemma copyTagsPtr_eq (h : Heap) (p : Option Nat) :
    copyTagsPtr h p = copyFlat selTags h p := by
  cases p with
  | none => rfl
  | some a =>
    cases hc : h[a]? with
    | none => simp [copyTagsPtr, copyFlat, alloc, hc]
    | some c => cases c <;> simp [copyTagsPtr, copyFlat, alloc, hc, selTags]

lemma wfStrPtr_eq (h : Heap) (p : Option Nat) : wfStrPtr h p = wfFlat selStr h p := by
  cases p with
  | none => rfl
  | some a =>
    cases hc : h[a]? with
    | none => simp [wfStrPtr, wfFlat, hc]
    | some c => cases c <;> simp [wfStrPtr, wfFlat, hc, selStr]

lemma wfBoolPtr_eq (h : Heap) (p : Option Nat) : wfBoolPtr h p = wfFlat selBool h p := by
  cases p with
  | none => rfl
  | some a =>
    cases hc : h[a]? with
    | none => simp [wfBoolPtr, wfFlat, hc]
    | some c => cases c <;> simp [wfBoolPtr, wfFlat, hc, selBool]

lemma wfIntPtr_eq (h : Heap) (p : Option Nat) : wfIntPtr h p = wfFlat selInt h p := by
  cases p with
  | none => rfl
  | some a =>
    cases hc : h[a]? with
    | none => simp [wfIntPtr, wfFlat, hc]
    | some c => cases c <;> simp [wfIntPtr, wfFlat, hc, selInt]

lemma wfRefPtr_eq (h : Heap) (p : Option Nat) : wfRefPtr h p = wfFlat selRef h p := by
  cases p with
  | none => rfl
  | some a =>
    cases hc : h[a]? with
    | none => simp [wfRefPtr, wfFlat, hc]
    | some c => cases c <;> simp [wfRefPtr, wfFlat, hc, selRef]

lemma wfSecretRefPtr_eq (h : Heap) (p : Option Nat) :
    wfSecretRefPtr h p = wfFlat selSecretRef h p := by
  cases p with
  | none => rfl
  | some a =>
    cases hc : h[a]? with
    | none => simp [wfSecretRefPtr, wfFlat, hc]
    | some c => cases c <;> simp [wfSecretRefPtr, wfFlat, hc, selSecretRef]

lemma wfLabelsPtr_eq (h : Heap) (p : Option Nat) :
    wfLabelsPtr h p = wfFlat selLabels h p := by
  cases p with
  | none => rfl
  | some a =>
    cases hc : h[a]? with
    | none => simp [wfLabelsPtr, wfFlat, hc]
    | some c => cases c <;> simp [wfLabelsPtr, wfFlat, hc, selLabels]

lemma wfTagsPtr_eq (h : Heap) (p : Option Nat) : wfTagsPtr h p = wfFlat selTags h p := by
  cases p with
  | none => rfl
  | some a =>
    cases hc : h[a]? with
    | none => simp [wfTagsPtr, wfFlat, hc]
    | some c => cases c <;> simp [wfTagsPtr, wfFlat, hc, selTags]

lemma readStr_deref (h : Heap) (p : Option Nat) :
    readStr h p = (match deref h p with | some (.strCell s) => some s | _ => none) := by
  cases p <;> rfl

lemma readBool_deref (h : Heap) (p : Option Nat) :
    readBool h p = (match deref h p with | some (.boolCell b) => some b | _ => none) := by
  cases p <;> rfl

lemma readInt_deref (h : Heap) (p : Option Nat) :
    readInt h p = (match deref h p with | some (.intCell n) => some n | _ => none) := by
  cases p <;> rfl

lemma readRef_deref (h : Heap) (p : Option Nat) :
    readRef h p = (match deref h p with | some (.refCell r) => some r | _ => none) := by
  cases p <;> rfl

lemma readSecretRef_deref (h : Heap) (p : Option Nat) :
    readSecretRef h p =
      (match deref h p with | some (.secretRefCell r) => some r | _ => none) := by
  cases p <;> rfl

lemma readLabels_deref (h : Heap) (p : Option Nat) :
    readLabels h p =
      (match deref h p with | some (.labelsCell ls) => some ls | _ => none) := by
  cases p <;> rfl

lemma readTags_deref (h : Heap) (p : Option Nat) :
    readTags h p = (match deref h p with | some (.tagsCell ts) => some ts | _ => none) := by
  cases p <;> rfl

lemma wfFlat_some (sel : Cell → Bool) (h : Heap) (a : Nat)
    (hwf : wfFlat sel h (some a) = true) :
    ∃ c, h[a]? = some c ∧ sel c = true := by
  cases hc : h[a]? with
  | none => simp [wfFlat, hc] at hwf
  | some c =>
    simp only [wfFlat, hc] at hwf
    exact ⟨c, rfl, hwf⟩

lemma wfFlat_lt (sel : Cell → Bool) (h : Heap) (p : Option Nat)
    (hwf : wfFlat sel h p = true) : ∀ a, p = some a → a < h.length := by
  intro a ha
  subst ha
  obtain ⟨c, hc, _⟩ := wfFlat_some sel h a hwf
  exact (List.getElem?_eq_some.mp hc).1

lemma deref_agree (h h₂ : Heap) (p : Option Nat)
    (hag : agreeBelow h h₂ h.length) (hlt : ∀ a, p = some a → a < h.length) :
    deref h₂ p = deref h p := by
  cases p with
  | none => rfl
  | some a => exact hag a (hlt a rfl)

lemma wfFlat_agree (sel : Cell → Bool) (h h₂ : Heap) (p : Option Nat)
    (hag : agreeBelow h h₂ h.length) (hwf : wfFlat sel h p = true) :
    wfFlat sel h₂ p = true := by
  cases p with
  | none => rfl
  | some a =>
    obtain ⟨c, hc, hs⟩ := wfFlat_some sel h a hwf
    have hlt : a < h.length := (List.getElem?_eq_some.mp hc).1
    simp only [wfFlat, hag a hlt, hc]
    exact hs

lemma agreeBelow_append (h t : Heap) : agreeBelow h (h ++ t) h.length := by
  intro b hb
  rw [List.getElem?_append, if_pos hb]

lemma agreeBelow_set (h h₂ : Heap) (a : Nat) (c : Cell)
    (hag : agreeBelow h h₂ h.length) (ha : h.length ≤ a) :
    agreeBelow h (h₂.set a c) h.length := by
  intro b hb
  rw [List.getElem?_set_ne (by omega : a ≠ b), hag b hb]

lemma copyFlat_none_ptr (sel : Cell → Bool) (h : Heap) :
    copyFlat sel h none = (h, none) := rfl

lemma copyFlat_some (sel : Cell → Bool) (h : Heap) (a : Nat) (c : Cell)
    (hc : h[a]? = some c) (hs : sel c = true) :
    copyFlat sel h (some a) = (h ++ [c], some h.length) := by
  simp only [copyFlat, hc, hs, if_true]

lemma copyFlat_spec (sel : Cell → Bool) (h : Heap) (p : Option Nat)
    (hwf : wfFlat sel h p = true) :
    (∃ t, (copyFlat sel h p).1 = h ++ t) ∧
    ((copyFlat sel h p).2 = none ↔ p = none) ∧
    (∀ a, (copyFlat sel h p).2 = some a → h.length ≤ a) ∧
    wfFlat sel (copyFlat sel h p).1 (copyFlat sel h p).2 = true ∧
    deref (copyFlat sel h p).1 (copyFlat sel h p).2 = deref h p := by
  cases p with
  | none =>
    refine ⟨⟨[], (List.append_nil h).symm⟩, by simp [copyFlat_none_ptr], ?_, rfl, rfl⟩
    intro a ha
    simp [copyFlat_none_ptr] at ha
  | some a =>
    obtain ⟨c, hc, hs⟩ := wfFlat_some sel h a hwf
    rw [copyFlat_some sel h a c hc hs]
    refine ⟨⟨[c], rfl⟩, by simp, ?_, ?_, ?_⟩
    · intro a' ha'
      cases ha'
      exact le_refl _
    · simp only [wfFlat, List.getElem?_concat_length]
      exact hs
    · simp only [deref, List.getElem?_concat_length, hc]

lemma readStr_agree (h h₂ : Heap) (p : Option Nat)
    (hag : agreeBelow h h₂ h.length) (hwf : wfStrPtr h p = true) :
    readStr h₂ p = readStr h p := by
  rw [wfStrPtr_eq] at hwf
  rw [readStr_deref, readStr_deref, deref_agree h h₂ p hag (wfFlat_lt selStr h p hwf)]

lemma readBool_agree (h h₂ : Heap) (p : Option Nat)
    (hag : agreeBelow h h₂ h.length) (hwf : wfBoolPtr h p = true) :
    readBool h₂ p = readBool h p := by
  rw [wfBoolPtr_eq] at hwf
  rw [readBool_deref, readBool_deref, deref_agree h h₂ p hag (wfFlat_lt selBool h p hwf)]

lemma readInt_agree (h h₂ : Heap) (p : Option Nat)
    (hag : agreeBelow h h₂ h.length) (hwf : wfIntPtr h p = true) :
    readInt h₂ p = readInt h p := by
  rw [wfIntPtr_eq] at hwf
  rw [readInt_deref, readInt_deref, deref_agree h h₂ p hag (wfFlat_lt selInt h p hwf)]

lemma readRef_agree (h h₂ : Heap) (p : Option Nat)
    (hag : agreeBelow h h₂ h.length) (hwf : wfRefPtr h p = true) :
    readRef h₂ p = readRef h p := by
  rw [wfRefPtr_eq] at hwf
  rw [readRef_deref, readRef_deref, deref_agree h h₂ p hag (wfFlat_lt selRef h p hwf)]

lemma readSecretRef_agree (h h₂ : Heap) (p : Option Nat)
    (hag : agreeBelow h h₂ h.length) (hwf : wfSecretRefPtr h p = true) :
    readSecretRef h₂ p = readSecretRef h p := by
  rw [wfSecretRefPtr_eq] at hwf
  rw [readSecretRef_deref, readSecretRef_deref,
    deref_agree h h₂ p hag (wfFlat_lt selSecretRef h p hwf)]

lemma readLabels_agree (h h₂ : Heap) (p : Option Nat)
    (hag : agreeBelow h h₂ h.length) (hwf : wfLabelsPtr h p = true) :
    readLabels h₂ p = readLabels h p := by
  rw [wfLabelsPtr_eq] at hwf
  rw [readLabels_deref, readLabels_deref,
    deref_agree h h₂ p hag (wfFlat_lt selLabels h p hwf)]

lemma readTags_agree (h h₂ : Heap) (p : Option Nat)
    (hag : agreeBelow h h₂ h.length) (hwf : wfTagsPtr h p = true) :
    readTags h₂ p = readTags h p := by
  rw [wfTagsPtr_eq] at hwf
  rw [readTags_deref, readTags_deref, deref_agree h h₂ p hag (wfFlat_lt selTags h p hwf)]

lemma wfStrPtr_agree (h h₂ : Heap) (p : Option Nat)
    (hag : agreeBelow h h₂ h.length) (hwf : wfStrPtr h p = true) :
    wfStrPtr h₂ p = true := by
  rw [wfStrPtr_eq] at hwf ⊢
  exact wfFlat_agree selStr h h₂ p hag hwf

lemma wfBoolPtr_agree (h h₂ : Heap) (p : Option Nat)
    (hag : agreeBelow h h₂ h.length) (hwf : wfBoolPtr h p = true) :
    wfBoolPtr h₂ p = true := by
  rw [wfBoolPtr_eq] at hwf ⊢
  exact wfFlat_agree selBool h h₂ p hag hwf

lemma wfIntPtr_agree (h h₂ : Heap) (p : Option Nat)
    (hag : agreeBelow h h₂ h.length) (hwf : wfIntPtr h p = true) :
    wfIntPtr h₂ p = true := by
  rw [wfIntPtr_eq] at hwf ⊢
  exact wfFlat_agree selInt h h₂ p hag hwf

lemma wfRefPtr_agree (h h₂ : Heap) (p : Option Nat)
    (hag : agreeBelow h h₂ h.length) (hwf : wfRefPtr h p = true) :
    wfRefPtr h₂ p = true := by
  rw [wfRefPtr_eq] at hwf ⊢
  exact wfFlat_agree selRef h h₂ p hag hwf

lemma wfSecretRefPtr_agree (h h₂ : Heap) (p : Option Nat)
    (hag : agreeBelow h h₂ h.length) (hwf : wfSecretRefPtr h p = true) :
    wfSecretRefPtr h₂ p = true := by
  rw [wfSecretRefPtr_eq] at hwf ⊢
  exact wfFlat_agree selSecretRef h h₂ p hag hwf

lemma wfLabelsPtr_agree (h h₂ : Heap) (p : Option Nat)
    (hag : agreeBelow h h₂ h.length) (hwf : wfLabelsPtr h p = true) :
    wfLabelsPtr h₂ p = true := by
  rw [wfLabelsPtr_eq] at hwf ⊢
  exact wfFlat_agree selLabels h h₂ p hag hwf

lemma wfTagsPtr_agree (h h₂ : Heap) (p : Option Nat)
    (hag : agreeBelow h h₂ h.length) (hwf : wfTagsPtr h p = true) :
    wfTagsPtr h₂ p = true := by
  rw [wfTagsPtr_eq] at hwf ⊢
  exact wfFlat_agree selTags h h₂ p hag hwf

lemma ptrAddrs_lt_of_wfFlat (sel : Cell → Bool) (h : Heap) (p : Option Nat)
    (hwf : wfFlat sel h p = true) : ∀ b ∈ ptrAddrs p, b < h.length := by
  intro b hb
  cases p with
  | none => simp [ptrAddrs] at hb
  | some a =>
    simp [ptrAddrs] at hb
    subst hb
    exact wfFlat_lt sel h (some b) hwf b rfl

lemma wfSelectorPtr_some (h : Heap) (a : Nat)
    (hwf : wfSelectorPtr h (some a) = true) :
    ∃ s, h[a]? = some (.selectorCell s) ∧
      wfBoolPtr h s.matchControllerRef = true ∧ wfLabelsPtr h s.matchLabels = true := by
  cases hc : h[a]? with
  | none => simp [wfSelectorPtr, hc] at hwf
  | some c =>
    cases c <;> simp [wfSelectorPtr, hc] at hwf
    case selectorCell s => exact ⟨s, rfl, hwf.1, hwf.2⟩

lemma wfSecretSelectorPtr_some (h : Heap) (a : Nat)
    (hwf : wfSecretSelectorPtr h (some a) = true) :
    ∃ s, h[a]? = some (.secretSelectorCell s) ∧
      wfSecretRefPtr h s.secretReference = true := by
  cases hc : h[a]? with
  | none => simp [wfSecretSelectorPtr, hc] at hwf
  | some c =>
    cases c <;> simp [wfSecretSelectorPtr, hc] at hwf
    case secretSelectorCell s => exact ⟨s, rfl, hwf⟩

lemma readSelector_agree (h h₂ : Heap) (p : Option Nat)
    (hag : agreeBelow h h₂ h.length) (hwf : wfSelectorPtr h p = true) :
    readSelector h₂ p = readSelector h p := by
  cases p with
  | none => rfl
  | some a =>
    obtain ⟨s, hc, hm, hl⟩ := wfSelectorPtr_some h a hwf
    have hlt : a < h.length := (List.getElem?_eq_some.mp hc).1
    simp only [readSelector, hag a hlt, hc, absSelector]
    rw [readBool_agree h h₂ _ hag hm, readLabels_agree h h₂ _ hag hl]

lemma readSecretSelector_agree (h h₂ : Heap) (p : Option Nat)
    (hag : agreeBelow h h₂ h.length) (hwf : wfSecretSelectorPtr h p = true) :
    readSecretSelector h₂ p = readSecretSelector h p := by
  cases p with
  | none => rfl
  | some a =>
    obtain ⟨s, hc, hr⟩ := wfSecretSelectorPtr_some h a hwf
    have hlt : a < h.length := (List.getElem?_eq_some.mp hc).1
    simp only [readSecretSelector, hag a hlt, hc, absSecretSelector]
    rw [readSecretRef_agree h h₂ _ hag hr]

lemma wfSelectorPtr_agree (h h₂ : Heap) (p : Option Nat)
    (hag : agreeBelow h h₂ h.length) (hwf : wfSelectorPtr h p = true) :
    wfSelectorPtr h₂ p = true := by
  cases p with
  | none => rfl
  | some a =>
    obtain ⟨s, hc, hm, hl⟩ := wfSelectorPtr_some h a hwf
    have hlt : a < h.length := (List.getElem?_eq_some.mp hc).1
    simp only [wfSelectorPtr, hag a hlt, hc, Bool.and_eq_true]
    exact ⟨wfBoolPtr_agree h h₂ _ hag hm, wfLabelsPtr_agree h h₂ _ hag hl⟩

lemma wfSecretSelectorPtr_agree (h h₂ : Heap) (p : Option Nat)
    (hag : agreeBelow h h₂ h.length) (hwf : wfSecretSelectorPtr h p = true) :
    wfSecretSelectorPtr h₂ p = true := by
  cases p with
  | none => rfl
  | some a =>
    obtain ⟨s, hc, hr⟩ := wfSecretSelectorPtr_some h a hwf
    have hlt : a < h.length := (List.getElem?_eq_some.mp hc).1
    simp only [wfSecretSelectorPtr, hag a hlt, hc]
    exact wfSecretRefPtr_agree h h₂ _ hag hr

lemma selectorAddrs_agree (h h₂ : Heap) (p : Option Nat)
    (hag : agreeBelow h h₂ h.length) (hwf : wfSelectorPtr h p = true) :
    selectorAddrs h₂ p = selectorAddrs h p := by
  cases p with
  | none => rfl
  | some a =>
    obtain ⟨s, hc, _, _⟩ := wfSelectorPtr_some h a hwf
    have hlt : a < h.length := (List.getElem?_eq_some.mp hc).1
    simp only [selectorAddrs, hag a hlt, hc]

lemma secretSelectorAddrs_agree (h h₂ : Heap) (p : Option Nat)
    (hag : agreeBelow h h₂ h.length) (hwf : wfSecretSelectorPtr h p = true) :
    secretSelectorAddrs h₂ p = secretSelectorAddrs h p := by
  cases p with
  | none => rfl
  | some a =>
    obtain ⟨s, hc, _⟩ := wfSecretSelectorPtr_some h a hwf
    have hlt : a < h.length := (List.getElem?_eq_some.mp hc).1
    simp only [secretSelectorAddrs, hag a hlt, hc]

lemma selectorAddrs_lt (h : Heap) (p : Option Nat)
    (hwf : wfSelectorPtr h p = true) : ∀ b ∈ selectorAddrs h p, b < h.length := by
  intro b hb
  cases p with
  | none => simp [selectorAddrs, ptrAddrs] at hb
  | some a =>
    obtain ⟨s, hc, hm, hl⟩ := wfSelectorPtr_some h a hwf
    simp only [selectorAddrs, hc, List.mem_append] at hb
    rcases hb with hb | hb
    · simp [ptrAddrs] at hb
      subst hb
      exact (List.getElem?_eq_some.mp hc).1
    · rcases hb with hb | hb
      · rw [wfBoolPtr_eq] at hm
        exact ptrAddrs_lt_of_wfFlat selBool h _ hm b hb
      · rw [wfLabelsPtr_eq] at hl
        exact ptrAddrs_lt_of_wfFlat selLabels h _ hl b hb

lemma secretSelectorAddrs_lt (h : Heap) (p : Option Nat)
    (hwf : wfSecretSelectorPtr h p = true) :
    ∀ b ∈ secretSelectorAddrs h p, b < h.length := by
  intro b hb
  cases p with
  | none => simp [secretSelectorAddrs, ptrAddrs] at hb
  | some a =>
    obtain ⟨s, hc, hr⟩ := wfSecretSelectorPtr_some h a hwf
    simp only [secretSelectorAddrs, hc, List.mem_append] at hb
    rcases hb with hb | hb
    · simp [ptrAddrs] at hb
      subst hb
      exact (List.getElem?_eq_some.mp hc).1
    · rw [wfSecretRefPtr_eq] at hr
      exact ptrAddrs_lt_of_wfFlat selSecretRef h _ hr b hb

lemma readStr_eq_of_deref (h h₂ : Heap) (p p₂ : Option Nat)
    (hd : deref h₂ p₂ = deref h p) : readStr h₂ p₂ = readStr h p := by
  rw [readStr_deref, readStr_deref, hd]

lemma readBool_eq_of_deref (h h₂ : Heap) (p p₂ : Option Nat)
    (hd : deref h₂ p₂ = deref h p) : readBool h₂ p₂ = readBool h p := by
  rw [readBool_deref, readBool_deref, hd]

lemma readInt_eq_of_deref (h h₂ : Heap) (p p₂ : Option Nat)
    (hd : deref h₂ p₂ = deref h p) : readInt h₂ p₂ = readInt h p := by
  rw [readInt_deref, readInt_deref, hd]

lemma readRef_eq_of_deref (h h₂ : Heap) (p p₂ : Option Nat)
    (hd : deref h₂ p₂ = deref h p) : readRef h₂ p₂ = readRef h p := by
  rw [readRef_deref, readRef_deref, hd]

lemma readSecretRef_eq_of_deref (h h₂ : Heap) (p p₂ : Option Nat)
    (hd : deref h₂ p₂ = deref h p) : readSecretRef h₂ p₂ = readSecretRef h p := by
  rw [readSecretRef_deref, readSecretRef_deref, hd]

lemma readLabels_eq_of_deref (h h₂ : Heap) (p p₂ : Option Nat)
    (hd : deref h₂ p₂ = deref h p) : readLabels h₂ p₂ = readLabels h p := by
  rw [readLabels_deref, readLabels_deref, hd]

lemma readTags_eq_of_deref (h h₂ : Heap) (p p₂ : Option Nat)
    (hd : deref h₂ p₂ = deref h p) : readTags h₂ p₂ = readTags h p := by
  rw [readTags_deref, readTags_deref, hd]

lemma copyStringPtr_spec (h : Heap) (p : Option Nat) (hwf : wfStrPtr h p = true) :
    (∃ t, (copyStringPtr h p).1 = h ++ t) ∧
    ((copyStringPtr h p).2 = none ↔ p = none) ∧
    (∀ a, (copyStringPtr h p).2 = some a → h.length ≤ a) ∧
    wfStrPtr (copyStringPtr h p).1 (copyStringPtr h p).2 = true ∧
    deref (copyStringPtr h p).1 (copyStringPtr h p).2 = deref h p := by
  rw [wfStrPtr_eq] at hwf
  simp only [copyStringPtr_eq, wfStrPtr_eq]
  exact copyFlat_spec selStr h p hwf

lemma copyBoolPtr_spec (h : Heap) (p : Option Nat) (hwf : wfBoolPtr h p = true) :
    (∃ t, (copyBoolPtr h p).1 = h ++ t) ∧
    ((copyBoolPtr h p).2 = none ↔ p = none) ∧
    (∀ a, (copyBoolPtr h p).2 = some a → h.length ≤ a) ∧
    wfBoolPtr (copyBoolPtr h p).1 (copyBoolPtr h p).2 = true ∧
    deref (copyBoolPtr h p).1 (copyBoolPtr h p).2 = deref h p := by
  rw [wfBoolPtr_eq] at hwf
  simp only [copyBoolPtr_eq, wfBoolPtr_eq]
  exact copyFlat_spec selBool h p hwf

lemma copyIntPtr_spec (h : Heap) (p : Option Nat) (hwf : wfIntPtr h p = true) :
    (∃ t, (copyIntPtr h p).1 = h ++ t) ∧
    ((copyIntPtr h p).2 = none ↔ p = none) ∧
    (∀ a, (copyIntPtr h p).2 = some a → h.length ≤ a) ∧
    wfIntPtr (copyIntPtr h p).1 (copyIntPtr h p).2 = true ∧
    deref (copyIntPtr h p).1 (copyIntPtr h p).2 = deref h p := by
  rw [wfIntPtr_eq] at hwf
  simp only [copyIntPtr_eq, wfIntPtr_eq]
  exact copyFlat_spec selInt h p hwf

lemma copyRefPtr_spec (h : Heap) (p : Option Nat) (hwf : wfRefPtr h p = true) :
    (∃ t, (copyRefPtr h p).1 = h ++ t) ∧
    ((copyRefPtr h p).2 = none ↔ p = none) ∧
    (∀ a, (copyRefPtr h p).2 = some a → h.length ≤ a) ∧
    wfRefPtr (copyRefPtr h p).1 (copyRefPtr h p).2 = true ∧
    deref (copyRefPtr h p).1 (copyRefPtr h p).2 = deref h p := by
  rw [wfRefPtr_eq] at hwf
  simp only [copyRefPtr_eq, wfRefPtr_eq]
  exact copyFlat_spec selRef h p hwf

lemma copySecretRefPtr_spec (h : Heap) (p : Option Nat)
    (hwf : wfSecretRefPtr h p = true) :
    (∃ t, (copySecretRefPtr h p).1 = h ++ t) ∧
    ((copySecretRefPtr h p).2 = none ↔ p = none) ∧
    (∀ a, (copySecretRefPtr h p).2 = some a → h.length ≤ a) ∧
    wfSecretRefPtr (copySecretRefPtr h p).1 (copySecretRefPtr h p).2 = true ∧
    deref (copySecretRefPtr h p).1 (copySecretRefPtr h p).2 = deref h p := by
  rw [wfSecretRefPtr_eq] at hwf
  simp only [copySecretRefPtr_eq, wfSecretRefPtr_eq]
  exact copyFlat_spec selSecretRef h p hwf

lemma copyLabelsPtr_spec (h : Heap) (p : Option Nat) (hwf : wfLabelsPtr h p = true) :
    (∃ t, (copyLabelsPtr h p).1 = h ++ t) ∧
    ((copyLabelsPtr h p).2 = none ↔ p = none) ∧
    (∀ a, (copyLabelsPtr h p).2 = some a → h.length ≤ a) ∧
    wfLabelsPtr (copyLabelsPtr h p).1 (copyLabelsPtr h p).2 = true ∧
    deref (copyLabelsPtr h p).1 (copyLabelsPtr h p).2 = deref h p := by
  rw [wfLabelsPtr_eq] at hwf
  simp only [copyLabelsPtr_eq, wfLabelsPtr_eq]
  exact copyFlat_spec selLabels h p hwf

lemma copyTagsPtr_spec (h : Heap) (p : Option Nat) (hwf : wfTagsPtr h p = true) :
    (∃ t, (copyTagsPtr h p).1 = h ++ t) ∧
    ((copyTagsPtr h p).2 = none ↔ p = none) ∧
    (∀ a, (copyTagsPtr h p).2 = some a → h.length ≤ a) ∧
    wfTagsPtr (copyTagsPtr h p).1 (copyTagsPtr h p).2 = true ∧
    deref (copyTagsPtr h p).1 (copyTagsPtr h p).2 = deref h p := by
  rw [wfTagsPtr_eq] at hwf
  simp only [copyTagsPtr_eq, wfTagsPtr_eq]
  exact copyFlat_spec selTags h p hwf

lemma copySelectorPtr_spec (h : Heap) (p : Option Nat)
    (hwf : wfSelectorPtr h p = true) :
    (∃ t, (copySelectorPtr h p).1 = h ++ t) ∧
    ((copySelectorPtr h p).2 = none ↔ p = none) ∧
    (∀ b ∈ selectorAddrs (copySelectorPtr h p).1 (copySelectorPtr h p).2, h.length ≤ b) ∧
    wfSelectorPtr (copySelectorPtr h p).1 (copySelectorPtr h p).2 = true ∧
    readSelector (copySelectorPtr h p).1 (copySelectorPtr h p).2 = readSelector h p := by
  cases p with
  | none =>
    refine ⟨⟨[], (List.append_nil h).symm⟩, by simp [copySelectorPtr], ?_, rfl, rfl⟩
    intro b hb
    simp [copySelectorPtr, selectorAddrs, ptrAddrs] at hb
  | some a =>
    obtain ⟨s, hc, hm, hl⟩ := wfSelectorPtr_some h a hwf
    have hstep : copySelectorPtr h (some a) =
        ((copyLabelsPtr (copyBoolPtr h s.matchControllerRef).1 s.matchLabels).1 ++
            [.selectorCell ⟨(copyBoolPtr h s.matchControllerRef).2,
              (copyLabelsPtr (copyBoolPtr h s.matchControllerRef).1 s.matchLabels).2⟩],
          some (copyLabelsPtr (copyBoolPtr h s.matchControllerRef).1
            s.matchLabels).1.length) := by
      simp only [copySelectorPtr, hc, Selector.deepCopyIntoH]
    obtain ⟨⟨t1, he1⟩, hn1, hf1, hwf1, hd1⟩ := copyBoolPtr_spec h s.matchControllerRef hm
    have hag1 : agreeBelow h (copyBoolPtr h s.matchControllerRef).1 h.length := by
      rw [he1]
      exact agreeBelow_append h t1
    have hl1 : wfLabelsPtr (copyBoolPtr h s.matchControllerRef).1 s.matchLabels = true :=
      wfLabelsPtr_agree h _ _ hag1 hl
    obtain ⟨⟨t2, he2⟩, hn2, hf2, hwf2, hd2⟩ :=
      copyLabelsPtr_spec (copyBoolPtr h s.matchControllerRef).1 s.matchLabels hl1
    have hlen1 : h.length ≤ (copyBoolPtr h s.matchControllerRef).1.length := by
      rw [he1, List.length_append]
      omega
    have hlen2 : (copyBoolPtr h s.matchControllerRef).1.length ≤
        (copyLabelsPtr (copyBoolPtr h s.matchControllerRef).1 s.matchLabels).1.length := by
      rw [he2, List.length_append]
      omega
    have hag2 : agreeBelow (copyBoolPtr h s.matchControllerRef).1
        (copyLabelsPtr (copyBoolPtr h s.matchControllerRef).1 s.matchLabels).1
        (copyBoolPtr h s.matchControllerRef).1.length := by
      rw [he2]
      exact agreeBelow_append _ t2
    rw [hstep]
    refine ⟨?_, by simp, ?_, ?_, ?_⟩
    · refine ⟨t1 ++ (t2 ++ [.selectorCell ⟨(copyBoolPtr h s.matchControllerRef).2,
        (copyLabelsPtr (copyBoolPtr h s.matchControllerRef).1 s.matchLabels).2⟩]), ?_⟩
      rw [he2, he1]
      simp [List.append_assoc]
    · intro b hb
      simp only [selectorAddrs, List.getElem?_concat_length, List.mem_append] at hb
      rcases hb with hb | hb
      · simp only [ptrAddrs, List.mem_singleton] at hb
        subst hb
        calc h.length
          ≤ (copyBoolPtr h s.matchControllerRef).1.length := hlen1
          _ ≤ _ := hlen2
      · rcases hb with hb | hb
        · cases hmv : (copyBoolPtr h s.matchControllerRef).2 with
          | none => rw [hmv] at hb; simp [ptrAddrs] at hb
          | some m =>
            rw [hmv] at hb
            simp only [ptrAddrs, List.mem_singleton] at hb
            subst hb
            exact hf1 b hmv
        · cases hlv : (copyLabelsPtr (copyBoolPtr h s.matchControllerRef).1
              s.matchLabels).2 with
          | none => rw [hlv] at hb; simp [ptrAddrs] at hb
          | some m =>
            rw [hlv] at hb
            simp only [ptrAddrs, List.mem_singleton] at hb
            subst hb
            exact le_trans hlen1 (hf2 b hlv)
    · simp only [wfSelectorPtr, List.getElem?_concat_length, Bool.and_eq_true]
      constructor
      · apply wfBoolPtr_agree (copyBoolPtr h s.matchControllerRef).1 _ _ ?_ hwf1
        intro b hb
        rw [List.getElem?_append, if_pos (lt_of_lt_of_le hb hlen2),
          hag2 b hb]
      · apply wfLabelsPtr_agree
          (copyLabelsPtr (copyBoolPtr h s.matchControllerRef).1 s.matchLabels).1 _ _ ?_ hwf2
        exact agreeBelow_append _ _
    · simp only [readSelector, List.getElem?_concat_length, hc, absSelector]
      have hagB : agreeBelow (copyBoolPtr h s.matchControllerRef).1
          ((copyLabelsPtr (copyBoolPtr h s.matchControllerRef).1 s.matchLabels).1 ++
            [Cell.selectorCell ⟨(copyBoolPtr h s.matchControllerRef).2,
              (copyLabelsPtr (copyBoolPtr h s.matchControllerRef).1 s.matchLabels).2⟩])
          (copyBoolPtr h s.matchControllerRef).1.length := by
        intro b hb
        rw [List.getElem?_append, if_pos (lt_of_lt_of_le hb hlen2), hag2 b hb]
      have h1 : readBool ((copyLabelsPtr (copyBoolPtr h s.matchControllerRef).1
            s.matchLabels).1 ++
            [Cell.selectorCell ⟨(copyBoolPtr h s.matchControllerRef).2,
              (copyLabelsPtr (copyBoolPtr h s.matchControllerRef).1 s.matchLabels).2⟩])
          (copyBoolPtr h s.matchControllerRef).2 = readBool h s.matchControllerRef := by
        rw [readBool_agree _ _ _ hagB hwf1]
        exact readBool_eq_of_deref _ _ _ _ hd1
      have h2 : readLabels ((copyLabelsPtr (copyBoolPtr h s.matchControllerRef).1
            s.matchLabels).1 ++
            [Cell.selectorCell ⟨(copyBoolPtr h s.matchControllerRef).2,
              (copyLabelsPtr (copyBoolPtr h s.matchControllerRef).1 s.matchLabels).2⟩])
          (copyLabelsPtr (copyBoolPtr h s.matchControllerRef).1 s.matchLabels).2 =
          readLabels h s.matchLabels := by
        rw [readLabels_agree _ _ _ (agreeBelow_append _ _) hwf2,
          readLabels_eq_of_deref _ _ _ _ hd2]
        exact readLabels_agree _ _ _ hag1 hl
      rw [h1, h2]

lemma copySecretSelectorPtr_spec (h : Heap) (p : Option Nat)
    (hwf : wfSecretSelectorPtr h p = true) :
    (∃ t, (copySecretSelectorPtr h p).1 = h ++ t) ∧
    ((copySecretSelectorPtr h p).2 = none ↔ p = none) ∧
    (∀ b ∈ secretSelectorAddrs (copySecretSelectorPtr h p).1 (copySecretSelectorPtr h p).2,
      h.length ≤ b) ∧
    wfSecretSelectorPtr (copySecretSelectorPtr h p).1 (copySecretSelectorPtr h p).2 = true ∧
    readSecretSelector (copySecretSelectorPtr h p).1 (copySecretSelectorPtr h p).2 =
      readSecretSelector h p := by
  cases p with
  | none =>
    refine ⟨⟨[], (List.append_nil h).symm⟩, by simp [copySecretSelectorPtr], ?_, rfl, rfl⟩
    intro b hb
    simp [copySecretSelectorPtr, secretSelectorAddrs, ptrAddrs] at hb
  | some a =>
    obtain ⟨s, hc, hr⟩ := wfSecretSelectorPtr_some h a hwf
    have hstep : copySecretSelectorPtr h (some a) =
        ((copySecretRefPtr h s.secretReference).1 ++
            [.secretSelectorCell
              { s with secretReference := (copySecretRefPtr h s.secretReference).2 }],
          some (copySecretRefPtr h s.secretReference).1.length) := by
      simp only [copySecretSelectorPtr, hc, SecretSelector.deepCopyIntoH]
    obtain ⟨⟨t1, he1⟩, hn1, hf1, hwf1, hd1⟩ := copySecretRefPtr_spec h s.secretReference hr
    have hlen1 : h.length ≤ (copySecretRefPtr h s.secretReference).1.length := by
      rw [he1, List.length_append]
      omega
    rw [hstep]
    refine ⟨?_, by simp, ?_, ?_, ?_⟩
    · refine ⟨t1 ++ [.secretSelectorCell
        { s with secretReference := (copySecretRefPtr h s.secretReference).2 }], ?_⟩
      rw [he1]
      simp [List.append_assoc]
    · intro b hb
      simp only [secretSelectorAddrs, List.getElem?_concat_length, List.mem_append] at hb
      rcases hb with hb | hb
      · simp only [ptrAddrs, List.mem_singleton] at hb
        subst hb
        exact hlen1
      · cases hrv : (copySecretRefPtr h s.secretReference).2 with
        | none => rw [hrv] at hb; simp [ptrAddrs] at hb
        | some m =>
          rw [hrv] at hb
          simp only [ptrAddrs, List.mem_singleton] at hb
          subst hb
          exact hf1 b hrv
    · simp only [wfSecretSelectorPtr, List.getElem?_concat_length]
      exact wfSecretRefPtr_agree _ _ _ (agreeBelow_append _ _) hwf1
    · simp only [readSecretSelector, List.getElem?_concat_length, hc, absSecretSelector]
      have h1 : readSecretRef ((copySecretRefPtr h s.secretReference).1 ++
            [Cell.secretSelectorCell
              { s with secretReference := (copySecretRefPtr h s.secretReference).2 }])
          (copySecretRefPtr h s.secretReference).2 = readSecretRef h s.secretReference := by
        rw [readSecretRef_agree _ _ _ (agreeBelow_append _ _) hwf1]
        exact readSecretRef_eq_of_deref _ _ _ _ hd1
      rw [h1]

lemma wfParams_parts (h : Heap) (p : SecretParameters) (hwf : wfParams h p = true) :
    wfStrPtr h p.description = true ∧ wfStrPtr h p.kmsKeyID = true ∧
    wfRefPtr h p.kmsKeyRef = true ∧ wfSelectorPtr h p.kmsKeySelector = true ∧
    wfSecretSelectorPtr h p.secretRef = true ∧
    wfBoolPtr h p.forceDeleteWithoutRecovery = true ∧
    wfIntPtr h p.recoveryWindowInDays = true ∧ wfTagsPtr h p.tags = true := by
  simp only [wfParams, Bool.and_eq_true] at hwf
  exact ⟨hwf.1.1.1.1.1.1.1, hwf.1.1.1.1.1.1.2, hwf.1.1.1.1.1.2, hwf.1.1.1.1.2,
    hwf.1.1.1.2, hwf.1.1.2, hwf.1.2, hwf.2⟩

lemma absParams_agree (h h₂ : Heap) (p : SecretParameters)
    (hag : agreeBelow h h₂ h.length) (hwf : wfParams h p = true) :
    absParams h₂ p = absParams h p := by
  obtain ⟨w1, w2, w3, w4, w5, w6, w7, w8⟩ := wfParams_parts h p hwf
  simp only [absParams]
  rw [readStr_agree h h₂ _ hag w1, readStr_agree h h₂ _ hag w2,
    readRef_agree h h₂ _ hag w3, readSelector_agree h h₂ _ hag w4,
    readSecretSelector_agree h h₂ _ hag w5, readBool_agree h h₂ _ hag w6,
    readInt_agree h h₂ _ hag w7, readTags_agree h h₂ _ hag w8]

lemma paramsAddrs_lt (h : Heap) (p : SecretParameters) (hwf : wfParams h p = true) :
    ∀ b ∈ paramsAddrs h p, b < h.length := by
  obtain ⟨w1, w2, w3, w4, w5, w6, w7, w8⟩ := wfParams_parts h p hwf
  intro b hb
  simp only [paramsAddrs, List.mem_append] at hb
  rcases hb with ((((((hb | hb) | hb) | hb) | hb) | hb) | hb) | hb
  · rw [wfStrPtr_eq] at w1
    exact ptrAddrs_lt_of_wfFlat selStr h _ w1 b hb
  · rw [wfStrPtr_eq] at w2
    exact ptrAddrs_lt_of_wfFlat selStr h _ w2 b hb
  · rw [wfRefPtr_eq] at w3
    exact ptrAddrs_lt_of_wfFlat selRef h _ w3 b hb
  · exact selectorAddrs_lt h _ w4 b hb
  · exact secretSelectorAddrs_lt h _ w5 b hb
  · rw [wfBoolPtr_eq] at w6
    exact ptrAddrs_lt_of_wfFlat selBool h _ w6 b hb
  · rw [wfIntPtr_eq] at w7
    exact ptrAddrs_lt_of_wfFlat selInt h _ w7 b hb
  · rw [wfTagsPtr_eq] at w8
    exact ptrAddrs_lt_of_wfFlat selTags h _ w8 b hb

lemma exists_append_trans (g g₂ g₃ : Heap) (hx : ∃ u, g₂ = g ++ u)
    (hy : ∃ u, g₃ = g₂ ++ u) : ∃ u, g₃ = g ++ u := by
  obtain ⟨u1, hu1⟩ := hx
  obtain ⟨u2, hu2⟩ := hy
  exact ⟨u1 ++ u2, by rw [hu2, hu1, List.append_assoc]⟩

lemma agreeBelow_of_exists (g g₂ : Heap) (hx : ∃ u, g₂ = g ++ u) :
    agreeBelow g g₂ g.length := by
  obtain ⟨u, hu⟩ := hx
  rw [hu]
  exact agreeBelow_append g u

lemma length_le_of_exists (g g₂ : Heap) (hx : ∃ u, g₂ = g ++ u) :
    g.length ≤ g₂.length := by
  obtain ⟨u, hu⟩ := hx
  rw [hu, List.length_append]
  omega

lemma ptrAddrs_le (p : Option Nat) (n : Nat) (hf : ∀ a, p = some a → n ≤ a) :
    ∀ b ∈ ptrAddrs p, n ≤ b := by
  intro b hb
  cases p with
  | none => simp [ptrAddrs] at hb
  | some a =>
    simp [ptrAddrs] at hb
    subst hb
    exact hf _ rfl

lemma deepCopyIntoH_spec (h : Heap) (p : SecretParameters) (hwf : wfParams h p = true) :
    (∃ t, (SecretParameters.deepCopyIntoH h p).1 = h ++ t) ∧
    absParams (SecretParameters.deepCopyIntoH h p).1
      (SecretParameters.deepCopyIntoH h p).2 = absParams h p ∧
    (∀ b ∈ paramsAddrs (SecretParameters.deepCopyIntoH h p).1
        (SecretParameters.deepCopyIntoH h p).2, h.length ≤ b) := by
  obtain ⟨w1, w2, w3, w4, w5, w6, w7, w8⟩ := wfParams_parts h p hwf
  simp only [SecretParameters.deepCopyIntoH]
  generalize hg1 : copyStringPtr h p.description = x1
  generalize hg2 : copyStringPtr x1.1 p.kmsKeyID = x2
  generalize hg3 : copyRefPtr x2.1 p.kmsKeyRef = x3
  generalize hg4 : copySelectorPtr x3.1 p.kmsKeySelector = x4
  generalize hg5 : copySecretSelectorPtr x4.1 p.secretRef = x5
  generalize hg6 : copyBoolPtr x5.1 p.forceDeleteWithoutRecovery = x6
  generalize hg7 : copyIntPtr x6.1 p.recoveryWindowInDays = x7
  generalize hg8 : copyTagsPtr x7.1 p.tags = x8
  -- step 1: description
  have spec1 := copyStringPtr_spec h p.description w1
  rw [hg1] at spec1
  obtain ⟨hS1, -, hf1, hwf1, hd1⟩ := spec1
  have hF1 : ∃ u, x1.1 = h ++ u := hS1
  have ag01 : agreeBelow h x1.1 h.length := agreeBelow_of_exists h x1.1 hF1
  -- step 2: kmsKeyID
  have spec2 := copyStringPtr_spec x1.1 p.kmsKeyID (wfStrPtr_agree h x1.1 _ ag01 w2)
  rw [hg2] at spec2
  obtain ⟨hS2, -, hf2, hwf2, hd2⟩ := spec2
  have hF2 : ∃ u, x2.1 = h ++ u := exists_append_trans h x1.1 x2.1 hF1 hS2
  have ag02 : agreeBelow h x2.1 h.length := agreeBelow_of_exists h x2.1 hF2
  -- step 3: kmsKeyRef
  have spec3 := copyRefPtr_spec x2.1 p.kmsKeyRef (wfRefPtr_agree h x2.1 _ ag02 w3)
  rw [hg3] at spec3
  obtain ⟨hS3, -, hf3, hwf3, hd3⟩ := spec3
  have hF3 : ∃ u, x3.1 = h ++ u := exists_append_trans h x2.1 x3.1 hF2 hS3
  have ag03 : agreeBelow h x3.1 h.length := agreeBelow_of_exists h x3.1 hF3
  -- step 4: kmsKeySelector
  have spec4 := copySelectorPtr_spec x3.1 p.kmsKeySelector
    (wfSelectorPtr_agree h x3.1 _ ag03 w4)
  rw [hg4] at spec4
  obtain ⟨hS4, -, haddr4, hwf4, hrd4⟩ := spec4
  have hF4 : ∃ u, x4.1 = h ++ u := exists_append_trans h x3.1 x4.1 hF3 hS4
  have ag04 : agreeBelow h x4.1 h.length := agreeBelow_of_exists h x4.1 hF4
  -- step 5: secretRef
  have spec5 := copySecretSelectorPtr_spec x4.1 p.secretRef
    (wfSecretSelectorPtr_agree h x4.1 _ ag04 w5)
  rw [hg5] at spec5
  obtain ⟨hS5, -, haddr5, hwf5, hrd5⟩ := spec5
  have hF5 : ∃ u, x5.1 = h ++ u := exists_append_trans h x4.1 x5.1 hF4 hS5
  have ag05 : agreeBelow h x5.1 h.length := agreeBelow_of_exists h x5.1 hF5
  -- step 6: forceDeleteWithoutRecovery
  have spec6 := copyBoolPtr_spec x5.1 p.forceDeleteWithoutRecovery
    (wfBoolPtr_agree h x5.1 _ ag05 w6)
  rw [hg6] at spec6
  obtain ⟨hS6, -, hf6, hwf6, hd6⟩ := spec6
  have hF6 : ∃ u, x6.1 = h ++ u := exists_append_trans h x5.1 x6.1 hF5 hS6
  have ag06 : agreeBelow h x6.1 h.length := agreeBelow_of_exists h x6.1 hF6
  -- step 7: recoveryWindowInDays
  have spec7 := copyIntPtr_spec x6.1 p.recoveryWindowInDays
    (wfIntPtr_agree h x6.1 _ ag06 w7)
  rw [hg7] at spec7
  obtain ⟨hS7, -, hf7, hwf7, hd7⟩ := spec7
  have hF7 : ∃ u, x7.1 = h ++ u := exists_append_trans h x6.1 x7.1 hF6 hS7
  have ag07 : agreeBelow h x7.1 h.length := agreeBelow_of_exists h x7.1 hF7
  -- step 8: tags
  have spec8 := copyTagsPtr_spec x7.1 p.tags (wfTagsPtr_agree h x7.1 _ ag07 w8)
  rw [hg8] at spec8
  obtain ⟨hS8, -, hf8, hwf8, hd8⟩ := spec8
  have hF8 : ∃ u, x8.1 = h ++ u := exists_append_trans h x7.1 x8.1 hF7 hS8
  -- backward extensions: from each intermediate heap to the final one
  have hB7 : ∃ u, x8.1 = x7.1 ++ u := hS8
  have hB6 : ∃ u, x8.1 = x6.1 ++ u := exists_append_trans x6.1 x7.1 x8.1 hS7 hB7
  have hB5 : ∃ u, x8.1 = x5.1 ++ u := exists_append_trans x5.1 x6.1 x8.1 hS6 hB6
  have hB4 : ∃ u, x8.1 = x4.1 ++ u := exists_append_trans x4.1 x5.1 x8.1 hS5 hB5
  have hB3 : ∃ u, x8.1 = x3.1 ++ u := exists_append_trans x3.1 x4.1 x8.1 hS4 hB4
  have hB2 : ∃ u, x8.1 = x2.1 ++ u := exists_append_trans x2.1 x3.1 x8.1 hS3 hB3
  have hB1 : ∃ u, x8.1 = x1.1 ++ u := exists_append_trans x1.1 x2.1 x8.1 hS2 hB2
  -- final reads of the copied fields equal the original reads
  have hr1 : readStr x8.1 x1.2 = readStr h p.description := by
    rw [readStr_agree x1.1 x8.1 _ (agreeBelow_of_exists x1.1 x8.1 hB1) hwf1]
    exact readStr_eq_of_deref _ _ _ _ hd1
  have hr2 : readStr x8.1 x2.2 = readStr h p.kmsKeyID := by
    rw [readStr_agree x2.1 x8.1 _ (agreeBelow_of_exists x2.1 x8.1 hB2) hwf2,
      readStr_eq_of_deref x1.1 x2.1 _ _ hd2]
    exact readStr_agree h x1.1 _ ag01 w2
  have hr3 : readRef x8.1 x3.2 = readRef h p.kmsKeyRef := by
    rw [readRef_agree x3.1 x8.1 _ (agreeBelow_of_exists x3.1 x8.1 hB3) hwf3,
      readRef_eq_of_deref x2.1 x3.1 _ _ hd3]
    exact readRef_agree h x2.1 _ ag02 w3
  have hr4 : readSelector x8.1 x4.2 = readSelector h p.kmsKeySelector := by
    rw [readSelector_agree x4.1 x8.1 _ (agreeBelow_of_exists x4.1 x8.1 hB4) hwf4, hrd4]
    exact readSelector_agree h x3.1 _ ag03 w4
  have hr5 : readSecretSelector x8.1 x5.2 = readSecretSelector h p.secretRef := by
    rw [readSecretSelector_agree x5.1 x8.1 _ (agreeBelow_of_exists x5.1 x8.1 hB5) hwf5,
      hrd5]
    exact readSecretSelector_agree h x4.1 _ ag04 w5
  have hr6 : readBool x8.1 x6.2 = readBool h p.forceDeleteWithoutRecovery := by
    rw [readBool_agree x6.1 x8.1 _ (agreeBelow_of_exists x6.1 x8.1 hB6) hwf6,
      readBool_eq_of_deref x5.1 x6.1 _ _ hd6]
    exact readBool_agree h x5.1 _ ag05 w6
  have hr7 : readInt x8.1 x7.2 = readInt h p.recoveryWindowInDays := by
    rw [readInt_agree x7.1 x8.1 _ (agreeBelow_of_exists x7.1 x8.1 hB7) hwf7,
      readInt_eq_of_deref x6.1 x7.1 _ _ hd7]
    exact readInt_agree h x6.1 _ ag06 w7
  have hr8 : readTags x8.1 x8.2 = readTags h p.tags := by
    rw [readTags_eq_of_deref x7.1 x8.1 _ _ hd8]
    exact readTags_agree h x7.1 _ ag07 w8
  refine ⟨hF8, ?_, ?_⟩
  · simp only [absParams]
    rw [hr1, hr2, hr3, hr4, hr5, hr6, hr7, hr8]
  · intro b hb
    simp only [paramsAddrs, List.mem_append] at hb
    rcases hb with ((((((hb | hb) | hb) | hb) | hb) | hb) | hb) | hb
    · exact ptrAddrs_le x1.2 h.length hf1 b hb
    · exact ptrAddrs_le x2.2 h.length
        (fun a ha => le_trans (length_le_of_exists h x1.1 hF1) (hf2 a ha)) b hb
    · exact ptrAddrs_le x3.2 h.length
        (fun a ha => le_trans (length_le_of_exists h x2.1 hF2) (hf3 a ha)) b hb
    · rw [selectorAddrs_agree x4.1 x8.1 _ (agreeBelow_of_exists x4.1 x8.1 hB4) hwf4] at hb
      exact le_trans (length_le_of_exists h x3.1 hF3) (haddr4 b hb)
    · rw [secretSelectorAddrs_agree x5.1 x8.1 _
        (agreeBelow_of_exists x5.1 x8.1 hB5) hwf5] at hb
      exact le_trans (length_le_of_exists h x4.1 hF4) (haddr5 b hb)
    · exact ptrAddrs_le x6.2 h.length
        (fun a ha => le_trans (length_le_of_exists h x5.1 hF5) (hf6 a ha)) b hb
    · exact ptrAddrs_le x7.2 h.length
        (fun a ha => le_trans (length_le_of_exists h x6.1 hF6) (hf7 a ha)) b hb
    · exact ptrAddrs_le x8.2 h.length
        (fun a ha => le_trans (length_le_of_exists h x7.1 hF7) (hf8 a ha)) b hb

/-- C10: DeepCopy maps a nil receiver to nil; on any well-formed non-nil
receiver it allocates a new object filled by DeepCopyInto, and the copy
is structurally equal to the original (the same pointer-resolved
content), shares no heap storage with it (every address reachable from
the copy differs from every address reachable from the original), and
overwriting any heap cell reachable from the copy — any pointee or the
Tags backing array — leaves the original's content unchanged. -/
theorem C10_deepcopy_fresh (h : Heap) (p : SecretParameters)
    (hwf : wfParams h p = true) :
    SecretParameters.deepCopyH h none = (h, none) ∧
    SecretParameters.deepCopyH h (some p) =
      ((SecretParameters.deepCopyIntoH h p).1,
        some (SecretParameters.deepCopyIntoH h p).2) ∧
    absParams (SecretParameters.deepCopyIntoH h p).1
      (SecretParameters.deepCopyIntoH h p).2 = absParams h p ∧
    (∀ a ∈ paramsAddrs (SecretParameters.deepCopyIntoH h p).1
        (SecretParameters.deepCopyIntoH h p).2,
      ∀ b ∈ paramsAddrs h p, a ≠ b) ∧
    (∀ a ∈ paramsAddrs (SecretParameters.deepCopyIntoH h p).1
        (SecretParameters.deepCopyIntoH h p).2, ∀ c,
      absParams ((SecretParameters.deepCopyIntoH h p).1.set a c) p = absParams h p) := by
  obtain ⟨hext, habs, hfresh⟩ := deepCopyIntoH_spec h p hwf
  refine ⟨rfl, rfl, habs, ?_, ?_⟩
  · intro a ha b hb
    have h1 := hfresh a ha
    have h2 := paramsAddrs_lt h p hwf b hb
    omega
  · intro a ha c
    exact absParams_agree h _ p
      (agreeBelow_set h _ a c (agreeBelow_of_exists h _ hext) (hfresh a ha)) hwf

/-- C10 witness: the sample heap and fully-populated sample parameters. -/
theorem C10_witness :
    SecretParameters.deepCopyH sampleHeap none = (sampleHeap, none) ∧
    SecretParameters.deepCopyH sampleHeap (some sampleParams) =
      ((SecretParameters.deepCopyIntoH sampleHeap sampleParams).1,
        some (SecretParameters.deepCopyIntoH sampleHeap sampleParams).2) ∧
    absParams (SecretParameters.deepCopyIntoH sampleHeap sampleParams).1
      (SecretParameters.deepCopyIntoH sampleHeap sampleParams).2 =
      absParams sampleHeap sampleParams ∧
    (∀ a ∈ paramsAddrs (SecretParameters.deepCopyIntoH sampleHeap sampleParams).1
        (SecretParameters.deepCopyIntoH sampleHeap sampleParams).2,
      ∀ b ∈ paramsAddrs sampleHeap sampleParams, a ≠ b) ∧
    (∀ a ∈ paramsAddrs (SecretParameters.deepCopyIntoH sampleHeap sampleParams).1
        (SecretParameters.deepCopyIntoH sampleHeap sampleParams).2, ∀ c,
      absParams ((SecretParameters.deepCopyIntoH sampleHeap sampleParams).1.set a c)
        sampleParams = absParams sampleHeap sampleParams) :=
  C10_deepcopy_fresh sampleHeap sampleParams (by decide)

end ProviderAWS
